import Mathlib

/-!
# Verification of the AHKO12 thermalblock experiments driver

A shallow embedding, in Lean 4, of the orchestration logic of
`demos/examples/linearelliptic/AHKO12-thermalblock-experiments.py`
(dune-hdd-demos).  The script parses an INI settings file, selects a
reduction strategy, invokes an external greedy training procedure and a
quality-test loop, and formats text reports.

The external numerical collaborators (the dune discretization provider and
the pymor reduction library) are opaque: they are abstracted as parameters
(`Externals`).  Everything the script itself computes — configuration
resolution with defaults, suffix classification of `[pymor.defaults]`
options, option validation and dispatch, the running-max error scan of
`test_quality`, and the order in which stages run — is translated
faithfully from the Python source.

Conventions for the embedding:
* Python strings are `String`; all character work is done on `String.data`
  (`List Char`) by structural recursion so that every definition evaluates
  by kernel reduction.
* Python exceptions become the explicit error type `PyError`, and fallible
  code returns `Except PyError _`.  A bare `except:` clause (used once, for
  configuration loading) is modelled by the corresponding `match`.
* Python `float` values arising from `ConfigParser.getfloat` carry exact
  decimal semantics here (`ℚ` via `mkRat`); the script only feeds decimal
  literals of a few digits to `float()`, where this is faithful.
* Wall-clock timing (`time.time()`) is not modelled; report records keep
  every other field of the corresponding Python format template.
-/

/-- Lower-case an ASCII letter, identity otherwise; models what Python 2's
`str.lower` does on the byte strings appearing in settings files. -/
def lowerChar (c : Char) : Char :=
  if 'A' ≤ c ∧ c ≤ 'Z' then Char.ofNat (c.toNat + 32) else c

/-- Models `str.lower` on the character list of a Python string. -/
def lowerStr (s : String) : List Char :=
  s.data.map lowerChar

/-- Decimal digit test (`'0'` to `'9'`). -/
def isDigitC (c : Char) : Bool :=
  decide ('0' ≤ c) && decide (c ≤ '9')

/-- Numeric value of a list of decimal digits (most significant first). -/
def digitsVal (l : List Char) : Nat :=
  l.foldl (fun acc c => 10 * acc + (c.toNat - 48)) 0

/-- Split an optional leading sign off a character list, returning the sign
as `1` or `-1` together with the remaining characters. -/
def splitSign : List Char → Int × List Char
  | '-' :: rest => (-1, rest)
  | '+' :: rest => (1, rest)
  | l => (1, l)

/-- Python `int(s)` on the strings fed to `ConfigParser.getint`: an optional
sign followed by at least one decimal digit.  (Surrounding whitespace,
which no settings value in this demo carries, is not modelled.)  Returns
`none` where `int()` raises `ValueError`. -/
def parseIntStr (s : String) : Option Int :=
  let (sgn, digits) := splitSign s.data
  if digits ≠ [] ∧ digits.all isDigitC then
    some (sgn * (digitsVal digits : Int))
  else
    none

/-- Python `float(s)` on the plain decimal literals fed to
`ConfigParser.getfloat` by this demo: an optional sign, an integer part, an
optional `'.'` and fractional part (at least one digit overall).  The value
is exact: `intpart.fracpart = (intpart * 10^k + fracpart) / 10^k`.
Exponent forms, `inf`/`nan` and whitespace — never used by the demo's
settings — are not modelled.  Returns `none` where `float()` raises
`ValueError`. -/
def parseFloatStr (s : String) : Option ℚ :=
  let (sgn, body) := splitSign s.data
  let ipart := body.takeWhile isDigitC
  let rest := body.dropWhile isDigitC
  match rest with
  | [] =>
      if ipart ≠ [] then some (mkRat (sgn * (digitsVal ipart : Int)) 1) else none
  | '.' :: fpart =>
      if fpart.all isDigitC ∧ (ipart ≠ [] ∨ fpart ≠ []) then
        some (mkRat (sgn * ((digitsVal ipart * 10 ^ fpart.length + digitsVal fpart : Nat) : Int))
                    (10 ^ fpart.length))
      else none
  | _ => none

/-- Models `ConfigParser._boolean_states`: the mapping Python 2's `getboolean`
applies to the lower-cased option value; `none` where it raises
`ValueError`. -/
def parseBoolStr (s : String) : Option Bool :=
  let l := lowerStr s
  if l = "1".data ∨ l = "yes".data ∨ l = "true".data ∨ l = "on".data then some true
  else if l = "0".data ∨ l = "no".data ∨ l = "false".data ∨ l = "off".data then some false
  else none

/-- The Python exceptions that the driver can raise, as an explicit error
type.  `configError` is pymor's `ConfigError`; `noOptionError` is
`ConfigParser.NoOptionError` (an option lookup miss); `valueError` is the
`ValueError` of a failed `int()`/`float()`/`getboolean` conversion;
`keyError` is the `KeyError` of `str.format(**locals())` hitting an unbound
local name; `assertionError` is a failed `assert`. -/
inductive PyError where
  | configError (msg : String)
  | noOptionError (key : String)
  | valueError
  | keyError (name : String)
  | assertionError
deriving DecidableEq

/-- The `config_defaults` dictionary of the script: the defaults handed to
`ConfigParser.ConfigParser`, verbatim. -/
def config_defaults : List (String × String) :=
  [("framework", "rb"),
   ("num_training_samples", "100"),
   ("training_set", "random"),
   ("reductor", "generic"),
   ("extension_algorithm", "gram_schmidt"),
   ("extension_algorithm_product", "h1"),
   ("greedy_error_norm", "h1"),
   ("use_estimator", "False"),
   ("max_rb_size", "100"),
   ("target_error", "0.01"),
   ("num_test_samples", "100"),
   ("test_set", "training"),
   ("test_error_norm", "h1")]

/-- First-match association lookup, as a Python `dict`-backed section
behaves under `ConfigParser` (keys within one parsed section are unique). -/
def lookupOpt : List (String × String) → String → Option String
  | [], _ => none
  | p :: rest, key => if p.1 == key then some p.2 else lookupOpt rest key

/-- An INI settings file as parsed by `ConfigParser.readfp`: the sections
with their option/value pairs. -/
structure SettingsFile where
  sections : List (String × List (String × String))
deriving DecidableEq

/-- Models `ConfigParser.has_section`. -/
def has_section (f : SettingsFile) (name : String) : Bool :=
  f.sections.any (fun s => s.1 == name)

/-- First section with the given name, as a list scan. -/
def sections_find : List (String × List (String × String)) → String → List (String × String)
  | [], _ => []
  | s :: rest, name => if s.1 == name then s.2 else sections_find rest name

/-- The option/value pairs of a named section (empty when absent; every
call in the script is guarded by `has_section`). -/
def section_items (f : SettingsFile) (name : String) : List (String × String) :=
  sections_find f.sections name

/-- Models `config.get(sec, key)` for this parser: the section's own value, then
the constructor defaults `config_defaults`, then `NoOptionError`. -/
def cfg_get (f : SettingsFile) (sec : String) (key : String) : Except PyError String :=
  match lookupOpt (section_items f sec) key with
  | some v => Except.ok v
  | none =>
      match lookupOpt config_defaults key with
      | some v => Except.ok v
      | none => Except.error (PyError.noOptionError key)

/-- Models `config.getint(sec, key)`. -/
def cfg_getint (f : SettingsFile) (sec : String) (key : String) : Except PyError Int :=
  match cfg_get f sec key with
  | Except.error e => Except.error e
  | Except.ok v =>
      match parseIntStr v with
      | some n => Except.ok n
      | none => Except.error PyError.valueError

/-- Models `config.getfloat(sec, key)`. -/
def cfg_getfloat (f : SettingsFile) (sec : String) (key : String) : Except PyError ℚ :=
  match cfg_get f sec key with
  | Except.error e => Except.error e
  | Except.ok v =>
      match parseFloatStr v with
      | some q => Except.ok q
      | none => Except.error PyError.valueError

/-- Models `config.getboolean(sec, key)`. -/
def cfg_getboolean (f : SettingsFile) (sec : String) (key : String) : Except PyError Bool :=
  match cfg_get f sec key with
  | Except.error e => Except.error e
  | Except.ok v =>
      match parseBoolStr v with
      | some b => Except.ok b
      | none => Except.error PyError.valueError

/-- The `float_suffixes` list of the `[pymor.defaults]` loop. -/
def float_suffixes : List String := ["_tol", "_threshold"]

/-- The `boolean_suffixes` list of the `[pymor.defaults]` loop. -/
def boolean_suffixes : List String :=
  ["_find_duplicates", "_check", "_symmetrize", "_orthonormalize", "_raise_negative",
   "compact_print"]

/-- The `int_suffixes` list of the `[pymor.defaults]` loop. -/
def int_suffixes : List String := ["_maxiter"]

/-- The suffix test of the loop:
`len(key) >= len(suffix) and key[-len(suffix):] == suffix`. -/
def hasSuffixStr (key : String) (suffix : String) : Bool :=
  decide (key.data.length ≥ suffix.data.length) &&
    (key.data.drop (key.data.length - suffix.data.length) == suffix.data)

/-- The type a `[pymor.defaults]` value is converted to. -/
inductive SuffixKind where
  | floatKind
  | boolKind
  | intKind
deriving DecidableEq

/-- The `if any(...)/elif any(...)/elif any(...)` suffix dispatch of the
`[pymor.defaults]` loop, as a classification; `none` means the final
implicit else: the key is skipped. -/
def suffix_kind (key : String) : Option SuffixKind :=
  if float_suffixes.any (fun suffix => hasSuffixStr key suffix) then some SuffixKind.floatKind
  else if boolean_suffixes.any (fun suffix => hasSuffixStr key suffix) then some SuffixKind.boolKind
  else if int_suffixes.any (fun suffix => hasSuffixStr key suffix) then some SuffixKind.intKind
  else none

/-- A typed value written into the process-wide pymor defaults registry via
`defaults.__setattr__`. -/
inductive DefaultValue where
  | floatV (q : ℚ)
  | boolV (b : Bool)
  | intV (z : Int)
deriving DecidableEq

/-- The `for key, value in config.items('pymor.defaults')` loop: classify
each key by suffix, convert its value with `getfloat`/`getboolean`/`getint`
(a failed conversion raises `ValueError`), and record the `__setattr__`
write; keys matching no suffix are skipped silently.  The registry is the
accumulated list of writes. -/
def apply_defaults_items :
    List (String × String) → List (String × DefaultValue) →
    Except PyError (List (String × DefaultValue))
  | [], registry => Except.ok registry
  | (key, value) :: rest, registry =>
      match suffix_kind key with
      | some SuffixKind.floatKind =>
          match parseFloatStr value with
          | some q => apply_defaults_items rest (registry ++ [(key, DefaultValue.floatV q)])
          | none => Except.error PyError.valueError
      | some SuffixKind.boolKind =>
          match parseBoolStr value with
          | some b => apply_defaults_items rest (registry ++ [(key, DefaultValue.boolV b)])
          | none => Except.error PyError.valueError
      | some SuffixKind.intKind =>
          match parseIntStr value with
          | some z => apply_defaults_items rest (registry ++ [(key, DefaultValue.intV z)])
          | none => Except.error PyError.valueError
      | none => apply_defaults_items rest registry


/-- The basis-extension routines the script can select. -/
inductive ExtAlgId where
  | gram_schmidt_basis_extension
  | pod_basis_extension
deriving DecidableEq

/-- The reductor value assembled by `perform_standard_rb`'s `reductor`
branch.  On the `'generic'` branch the source line `reductor =
reduce_generic_rb,` ends in a comma, so the assembled value is a 1-tuple
(`genericTuple`); on the `'stationary_affine_linear'` branch it is
`partial(reduce_stationary_affine_linear, error_product=...)` with the
bound product recorded.  Either way the assembled value is never passed to
`greedy`. -/
inductive AssembledReductor where
  | genericTuple
  | stationaryAffineLinear (error_product : Option String)
deriving DecidableEq

/-- The reductor argument actually handed to `greedy` (both paths pass the
library function `reduce_generic_rb` itself). -/
inductive ReductorArg where
  | reduce_generic_rb
deriving DecidableEq

/-- The `initial_data` argument of the `greedy` call: one empty vector
array of the right-hand side's source dimension (standard RB), or one per
subdomain (LRBMS). -/
inductive InitialData where
  | single (dim : Nat)
  | blocks (dims : List Nat)
deriving DecidableEq

/-- The `extension_algorithm` argument of the `greedy` call: the selected
routine partially applied to a product.  Standard RB binds the detailed
discretization's `h1_product`; LRBMS wraps `block_basis_extension` around
one instance per subdomain, each bound to
`local_product(ss, extension_algorithm_product_id)`. -/
inductive ExtensionAlg where
  | bound (alg : ExtAlgId) (product_id : String)
  | block (locals_ : List (ExtAlgId × Nat × String))
deriving DecidableEq

/-- Which discretization a greedy run is performed on. -/
inductive DiscretizationId where
  | global_cg
  | multiscale
deriving DecidableEq

/-- The argument record of one `greedy(...)` invocation. -/
structure GreedyCall (μ : Type) where
  discretization : DiscretizationId
  reductor_arg : ReductorArg
  training_samples : List μ
  initial_data : InitialData
  use_estimator : Bool
  error_norm_id : String
  extension_algorithm : ExtensionAlg
  max_extensions : Int
  target_error : ℚ
deriving DecidableEq

/-- What the script reads back out of the opaque `greedy_data` dictionary:
`len(data)` (standard RB), the per-subdomain `len`s (LRBMS), and the
elapsed time it formats into the report. -/
structure GreedyData where
  data_len : Nat
  data_lens : List Nat
  time : ℚ
deriving DecidableEq

/-- The `rb_size` field of a reduction report: a scalar on the standard RB
path, a list of per-subdomain sizes on the LRBMS path. -/
inductive RBSize where
  | scalar (n : Nat)
  | per_subdomain (ns : List Nat)
deriving DecidableEq

/-- The fields of the `Greedy basis generation` report template (elapsed
time included; only the clock itself is abstract). -/
structure ReductionReport where
  use_estimator : Bool
  error_norm_id : String
  ext_id : ExtAlgId
  ext_product_id : String
  max_rb_size : Int
  target_error : ℚ
  rb_size : RBSize
  time : ℚ
deriving DecidableEq

/-- The configuration values `perform_standard_rb` has parsed by the time
its `# do the actual work` comment is reached. -/
structure RBParsed where
  reductor : AssembledReductor
  extension_algorithm_id : ExtAlgId
  use_estimator : Bool
  max_rb_size : Int
  target_error : ℚ
deriving DecidableEq

/-- The `reductor` branch of `perform_standard_rb`: `'generic'` assembles
the (unused) 1-tuple, `'stationary_affine_linear'` additionally reads
`reductor_error_product`, asserts it equals the literal `'None'` and binds
`error_product=None`; anything else raises `ConfigError`. -/
def parse_reductor (f : SettingsFile) : Except PyError AssembledReductor :=
  match cfg_get f "pymor" "reductor" with
  | Except.error e => Except.error e
  | Except.ok reductor_id =>
      if reductor_id = "generic" then
        Except.ok AssembledReductor.genericTuple
      else if reductor_id = "stationary_affine_linear" then
        match cfg_get f "pymor" "reductor_error_product" with
        | Except.error e => Except.error e
        | Except.ok reductor_error_product =>
            if reductor_error_product = "None" then
              Except.ok (AssembledReductor.stationaryAffineLinear none)
            else
              Except.error PyError.assertionError
      else
        Except.error (PyError.configError ("unknown pymor.reductor given: " ++ reductor_id))

/-- Read `extension_algorithm_product` and `assert` it equals `'h1'`
(shared shape of both strategy paths); returns the product id. -/
def parse_ext_product (f : SettingsFile) : Except PyError String :=
  match cfg_get f "pymor" "extension_algorithm_product" with
  | Except.error e => Except.error e
  | Except.ok extension_algorithm_product_id =>
      if extension_algorithm_product_id = "h1" then
        Except.ok extension_algorithm_product_id
      else
        Except.error PyError.assertionError

/-- The `extension_algorithm` branch shared by both paths: `'gram_schmidt'`
or `'pod'`, anything else raises `ConfigError`. -/
def parse_ext_alg (f : SettingsFile) : Except PyError ExtAlgId :=
  match cfg_get f "pymor" "extension_algorithm" with
  | Except.error e => Except.error e
  | Except.ok extension_algorithm_id =>
      if extension_algorithm_id = "gram_schmidt" then
        Except.ok ExtAlgId.gram_schmidt_basis_extension
      else if extension_algorithm_id = "pod" then
        Except.ok ExtAlgId.pod_basis_extension
      else
        Except.error
          (PyError.configError ("unknown pymor.extension_algorithm given: " ++ extension_algorithm_id))

/-- Read `greedy_error_norm` and `assert` it equals `'h1'`. -/
def parse_greedy_norm (f : SettingsFile) : Except PyError String :=
  match cfg_get f "pymor" "greedy_error_norm" with
  | Except.error e => Except.error e
  | Except.ok greedy_error_norm_id =>
      if greedy_error_norm_id = "h1" then
        Except.ok greedy_error_norm_id
      else
        Except.error PyError.assertionError

/-- The `# parse config` half of `perform_standard_rb`, in source order:
reductor branch, extension-algorithm product assert, extension-algorithm
branch, greedy-error-norm assert, then `use_estimator`, `max_rb_size`,
`target_error` conversions. -/
def parse_standard_rb_config (f : SettingsFile) : Except PyError RBParsed :=
  match parse_reductor f with
  | Except.error e => Except.error e
  | Except.ok reductor =>
      match parse_ext_product f with
      | Except.error e => Except.error e
      | Except.ok _ =>
          match parse_ext_alg f with
          | Except.error e => Except.error e
          | Except.ok extension_algorithm_id =>
              match parse_greedy_norm f with
              | Except.error e => Except.error e
              | Except.ok _ =>
                  match cfg_getboolean f "pymor" "use_estimator" with
                  | Except.error e => Except.error e
                  | Except.ok greedy_use_estimator =>
                      match cfg_getint f "pymor" "max_rb_size" with
                      | Except.error e => Except.error e
                      | Except.ok greedy_max_rb_size =>
                          match cfg_getfloat f "pymor" "target_error" with
                          | Except.error e => Except.error e
                          | Except.ok greedy_target_error =>
                              Except.ok
                                { reductor := reductor,
                                  extension_algorithm_id := extension_algorithm_id,
                                  use_estimator := greedy_use_estimator,
                                  max_rb_size := greedy_max_rb_size,
                                  target_error := greedy_target_error }

/-- The `greedy(...)` invocation of `perform_standard_rb`: the detailed
(global cg) discretization, the library function `reduce_generic_rb` (not
the assembled `reductor`), the training samples, one empty initial basis of
the right-hand side's source dimension, the parsed estimator flag, the
discretization's `h1` norm, the product-bound extension algorithm,
`max_rb_size` as the extension cap and `target_error`. -/
def standard_rb_greedy_call {μ : Type} (p : RBParsed) (rhs_dim : Nat)
    (training_samples : List μ) : GreedyCall μ :=
  { discretization := DiscretizationId.global_cg,
    reductor_arg := ReductorArg.reduce_generic_rb,
    training_samples := training_samples,
    initial_data := InitialData.single rhs_dim,
    use_estimator := p.use_estimator,
    error_norm_id := "h1",
    extension_algorithm := ExtensionAlg.bound p.extension_algorithm_id "h1",
    max_extensions := p.max_rb_size,
    target_error := p.target_error }

/-- The report `perform_standard_rb` formats from its locals, with
`rb_size = len(greedy_data['data'])`. -/
def mk_rb_report (p : RBParsed) (gd : GreedyData) : ReductionReport :=
  { use_estimator := p.use_estimator,
    error_norm_id := "h1",
    ext_id := p.extension_algorithm_id,
    ext_product_id := "h1",
    max_rb_size := p.max_rb_size,
    target_error := p.target_error,
    rb_size := RBSize.scalar gd.data_len,
    time := gd.time }

/-- The configuration values `perform_lrbms` has parsed by the time its
`# do the actual work` comment is reached (no reductor option is read on
this path). -/
structure LRBMSParsed where
  extension_algorithm_id : ExtAlgId
  use_estimator : Bool
  max_rb_size : Int
  target_error : ℚ
deriving DecidableEq

/-- The `# parse config` half of `perform_lrbms`, in source order:
extension-algorithm product assert, extension-algorithm branch,
greedy-error-norm assert, `use_estimator` conversion followed by
`assert greedy_use_estimator is False`, then `max_rb_size` and
`target_error`. -/
def parse_lrbms_config (f : SettingsFile) : Except PyError LRBMSParsed :=
  match parse_ext_product f with
  | Except.error e => Except.error e
  | Except.ok _ =>
      match parse_ext_alg f with
      | Except.error e => Except.error e
      | Except.ok extension_algorithm_id =>
          match parse_greedy_norm f with
          | Except.error e => Except.error e
          | Except.ok _ =>
              match cfg_getboolean f "pymor" "use_estimator" with
              | Except.error e => Except.error e
              | Except.ok greedy_use_estimator =>
                  if greedy_use_estimator = true then
                    Except.error PyError.assertionError
                  else
                    match cfg_getint f "pymor" "max_rb_size" with
                    | Except.error e => Except.error e
                    | Except.ok greedy_max_rb_size =>
                        match cfg_getfloat f "pymor" "target_error" with
                        | Except.error e => Except.error e
                        | Except.ok greedy_target_error =>
                            Except.ok
                              { extension_algorithm_id := extension_algorithm_id,
                                use_estimator := greedy_use_estimator,
                                max_rb_size := greedy_max_rb_size,
                                target_error := greedy_target_error }

/-- The `greedy(...)` invocation of `perform_lrbms`: the multiscale
discretization, `reduce_generic_rb`, one empty initial basis per subdomain
sized by `local_rhs(ss).dim_source`, and `block_basis_extension` around one
product-bound instance per subdomain. -/
def lrbms_greedy_call {μ : Type} (p : LRBMSParsed) (num_subdomains : Nat)
    (local_rhs_dim : Nat → Nat) (training_samples : List μ) : GreedyCall μ :=
  { discretization := DiscretizationId.multiscale,
    reductor_arg := ReductorArg.reduce_generic_rb,
    training_samples := training_samples,
    initial_data := InitialData.blocks ((List.range num_subdomains).map local_rhs_dim),
    use_estimator := p.use_estimator,
    error_norm_id := "h1",
    extension_algorithm :=
      ExtensionAlg.block ((List.range num_subdomains).map
        (fun ss => (p.extension_algorithm_id, ss, "h1"))),
    max_extensions := p.max_rb_size,
    target_error := p.target_error }

/-- The report `perform_lrbms` formats, with
`rb_size = [len(local_data) for local_data in greedy_data['data']]`. -/
def mk_lrbms_report (p : LRBMSParsed) (gd : GreedyData) : ReductionReport :=
  { use_estimator := p.use_estimator,
    error_norm_id := "h1",
    ext_id := p.extension_algorithm_id,
    ext_product_id := "h1",
    max_rb_size := p.max_rb_size,
    target_error := p.target_error,
    rb_size := RBSize.per_subdomain gd.data_lens,
    time := gd.time }

/-- The running-max loop of `test_quality` over the test samples, carrying
the Python locals `err_max` (initialized to the sentinel `-1`) and `mumax`
(unbound until first assigned, hence `Option`).  `errOf mu` abstracts
`test_error_norm(detailed_solution - reduced_solution)` for the sample
`mu`; the update fires on the source's strict comparison
`err > err_max`. -/
def quality_scan {μ : Type} (errOf : μ → ℚ) :
    List μ → ℚ → Option μ → ℚ × Option μ
  | [], err_max, mumax => (err_max, mumax)
  | mu :: rest, err_max, mumax =>
      let err := errOf mu
      if err_max < err then quality_scan errOf rest err (some mu)
      else quality_scan errOf rest err_max mumax

/-- The fields of the error-estimation report template of `test_quality`
(elapsed time aside). -/
structure TestReport (μ : Type) where
  strategy : String
  test_size : Nat
  err_max : ℚ
  mumax : μ
deriving DecidableEq

/-- Models `test_quality`: reads `test_error_norm` and `assert`s it equals `'h1'`,
runs the per-sample solve/reconstruct/compare loop as the running-max scan,
then renders the report with `.format(**locals())`.  The template names
`mumax`, so when the loop never assigned it (no sample exceeded the
sentinel, in particular for an empty test sequence) the formatting raises
`KeyError: 'mumax'` instead of returning a report. -/
def test_quality {μ : Type} (f : SettingsFile) (test_samples : List μ)
    (errOf : μ → ℚ) (strategy : String) : Except PyError (TestReport μ) :=
  match cfg_get f "pymor" "test_error_norm" with
  | Except.error e => Except.error e
  | Except.ok test_error_norm_id =>
      if test_error_norm_id = "h1" then
        let test_size := test_samples.length
        match quality_scan errOf test_samples (-1) none with
        | (err_max, some mumax) =>
            Except.ok
              { strategy := strategy, test_size := test_size,
                err_max := err_max, mumax := mumax }
        | (_, none) => Except.error (PyError.keyError "mumax")
      else
        Except.error PyError.assertionError

/-- The message of the `ConfigError` raised by the settings-loading
`try`/`except`. -/
def settings_err_msg : String :=
  "SETTINGSFILE has to be the name of an existing file that contains a [pymor] section"

/-- The `try: config.readfp(open(...)); assert config.has_section('pymor')
except: raise ConfigError(...)` block.  `none` models a file that cannot be
opened or parsed; the bare `except:` turns every failure, including the
failed assert, into the one `ConfigError`. -/
def load_config (file : Option SettingsFile) : Except PyError SettingsFile :=
  match file with
  | none => Except.error (PyError.configError settings_err_msg)
  | some f =>
      if has_section f "pymor" then Except.ok f
      else Except.error (PyError.configError settings_err_msg)

/-- The `if config.has_section('pymor.defaults'):` block.  Python 2's
`ConfigParser.items` merges the constructor defaults (`config_defaults`)
into every section's items, so the loop also visits the thirteen default
keys; none of them matches any suffix, so they contribute nothing. -/
def process_pymor_defaults (f : SettingsFile) :
    Except PyError (List (String × DefaultValue)) :=
  if has_section f "pymor.defaults" then
    apply_defaults_items (config_defaults ++ section_items f "pymor.defaults") []
  else
    Except.ok []

/-- The opaque external collaborators of the script, abstracted: the dune
discretization provider (right-hand-side dimensions, subdomain structure),
the parameter-space sampler, the greedy training procedure, and the
per-sample quality-test error `errOf` (the `h1` norm of the difference
between the detailed solution and the reconstructed reduced solution). -/
structure Externals (μ : Type) where
  sample_randomly : Int → List μ
  rhs_dim : Nat
  num_subdomains : Nat
  local_rhs_dim : Nat → Nat
  greedy : GreedyCall μ → GreedyData
  errOf : μ → ℚ

instance {ε α : Type _} [DecidableEq ε] [DecidableEq α] : DecidableEq (Except ε α)
  | Except.error a, Except.error b => decidable_of_iff (a = b) (by simp)
  | Except.error _, Except.ok _ => Decidable.isFalse (by simp)
  | Except.ok _, Except.error _ => Decidable.isFalse (by simp)
  | Except.ok a, Except.ok b => decidable_of_iff (a = b) (by simp)

/-- One run of `__main__`, observed: whether the dune module got loaded
(and with it the discretizations built), whether a `greedy(...)` run was
invoked, and either the two reports or the exception that terminated the
process. -/
structure Outcome (μ : Type) where
  dune_loaded : Bool
  greedy_ran : Bool
  result : Except PyError (ReductionReport × TestReport μ)
deriving DecidableEq

/-- Lines 298–305 of `__main__`: read `num_test_samples` (converted, then
never used), dispatch on `test_set` (`'training'` reuses the training
samples, anything else raises `ConfigError`), and run `test_quality` with
the sampling strategy as the report label.  The greedy run has already
happened. -/
def after_reduction {μ : Type} (ext : Externals μ) (f : SettingsFile)
    (training_samples : List μ) (rr : ReductionReport) : Outcome μ :=
  match cfg_getint f "pymor" "num_test_samples" with
  | Except.error e => ⟨true, true, Except.error e⟩
  | Except.ok _ =>
      match cfg_get f "pymor" "test_set" with
      | Except.error e => ⟨true, true, Except.error e⟩
      | Except.ok test_set_sampling_strategy =>
          if test_set_sampling_strategy = "training" then
            match test_quality f training_samples ext.errOf test_set_sampling_strategy with
            | Except.error e => ⟨true, true, Except.error e⟩
            | Except.ok tr => ⟨true, true, Except.ok (rr, tr)⟩
          else
            ⟨true, true,
             Except.error (PyError.configError
               ("unknown test_set sampling strategy given: " ++ test_set_sampling_strategy))⟩

/-- Lines 286–296 of `__main__`: dispatch on `framework`.  `'rb'` parses
the standard-RB options and, if that half succeeds, invokes `greedy` on the
global cg discretization; `'lrbms'` does the same on the multiscale
discretization; anything else raises `ConfigError`.  Errors in the parse
halves (including the pinned-option asserts) occur before the greedy
invocation. -/
def main_reduction {μ : Type} (ext : Externals μ) (f : SettingsFile)
    (training_samples : List μ) : Outcome μ :=
  match cfg_get f "pymor" "framework" with
  | Except.error e => ⟨true, false, Except.error e⟩
  | Except.ok framework =>
      if framework = "rb" then
        match parse_standard_rb_config f with
        | Except.error e => ⟨true, false, Except.error e⟩
        | Except.ok p =>
            let greedy_data := ext.greedy (standard_rb_greedy_call p ext.rhs_dim training_samples)
            after_reduction ext f training_samples (mk_rb_report p greedy_data)
      else if framework = "lrbms" then
        match parse_lrbms_config f with
        | Except.error e => ⟨true, false, Except.error e⟩
        | Except.ok p =>
            let greedy_data :=
              ext.greedy (lrbms_greedy_call p ext.num_subdomains ext.local_rhs_dim training_samples)
            after_reduction ext f training_samples (mk_lrbms_report p greedy_data)
      else
        ⟨true, false,
         Except.error (PyError.configError ("unknown framework given: " ++ framework))⟩

/-- Lines 277–283 of `__main__`: read `num_training_samples` (converted)
and dispatch on `training_set` (`'random'` draws that many samples from
the parameter space, anything else raises `ConfigError`).  Runs after the
dune module has been loaded and the discretizations built. -/
def main_training {μ : Type} (ext : Externals μ) (f : SettingsFile) : Outcome μ :=
  match cfg_getint f "pymor" "num_training_samples" with
  | Except.error e => ⟨true, false, Except.error e⟩
  | Except.ok num_training_samples =>
      match cfg_get f "pymor" "training_set" with
      | Except.error e => ⟨true, false, Except.error e⟩
      | Except.ok training_set_sampling_strategy =>
          if training_set_sampling_strategy = "random" then
            main_reduction ext f (ext.sample_randomly num_training_samples)
          else
            ⟨true, false,
             Except.error (PyError.configError
               ("unknown training_set sampling strategy given: "
                 ++ training_set_sampling_strategy))⟩

/-- Models `__main__` end to end: load the settings (any failure there is the one
`ConfigError`), process the optional `[pymor.defaults]` section, then load
the dune module and build the discretizations (`dune_loaded`), then
training-set creation, reduction, and quality test.  A failure before the
`load_dune_module` call leaves `dune_loaded = false`; a failure before any
`greedy(...)` invocation leaves `greedy_ran = false`. -/
def main_run {μ : Type} (ext : Externals μ) (file : Option SettingsFile) : Outcome μ :=
  match load_config file with
  | Except.error e => ⟨false, false, Except.error e⟩
  | Except.ok f =>
      match process_pymor_defaults f with
      | Except.error e => ⟨false, false, Except.error e⟩
      | Except.ok _ => main_training ext f

/-- Replace the value of `key` in an option list (append when absent):
the settings file as it would have been written with `key` set to `v`. -/
def setKey (l : List (String × String)) (key v : String) : List (String × String) :=
  if l.any (fun p => p.1 == key) then
    l.map (fun p => if p.1 == key then (p.1, v) else p)
  else
    l ++ [(key, v)]

/-- The settings file with the `[pymor]` option `key` set to `v` (sections
other than `pymor` untouched; a file without a `[pymor]` section is
returned unchanged). -/
def set_pymor_option (f : SettingsFile) (key v : String) : SettingsFile :=
  ⟨f.sections.map (fun s => if s.1 == "pymor" then (s.1, setKey s.2 key v) else s)⟩

/-- A settings file consisting of one empty `[pymor]` section: every
recognized option resolves to its default. -/
def pymor_only_file : SettingsFile := ⟨[("pymor", [])]⟩

/-- Concrete external collaborators over `ℕ`-labelled parameter points,
used to evaluate the pipeline on closed inputs. -/
def ext0 : Externals ℕ :=
  { sample_randomly := fun n => List.range n.toNat,
    rhs_dim := 5,
    num_subdomains := 2,
    local_rhs_dim := fun _ => 3,
    greedy := fun c => ⟨c.training_samples.length, [1, 2], 0⟩,
    errOf := fun n => (n : ℚ) }

/-- The error values `[0.3, 0.9, 0.2, 0.9]` attached to four parameter
points labelled `0,1,2,3`. -/
def c2_errs : ℕ → ℚ :=
  fun n => [mkRat 3 10, mkRat 9 10, mkRat 2 10, mkRat 9 10].getD n 0

/-- A settings file exercising the `[pymor.defaults]` suffix table: one key
per class and one key matching no suffix. -/
def defaults_demo_file : SettingsFile :=
  ⟨[("pymor", []),
    ("pymor.defaults",
     [("gram_schmidt_tol", "0.5"),
      ("compact_print", "yes"),
      ("bicgstab_maxiter", "42"),
      ("some_other_option", "whatever")])]⟩

/-- A settings file with sections but no `[pymor]` section. -/
def no_pymor_file : SettingsFile := ⟨[("other", [("a", "b")])]⟩

/-- A settings file whose only invalid option is `test_set`. -/
def bad_test_set_file : SettingsFile :=
  ⟨[("pymor",
     [("num_training_samples", "2"), ("target_error", "1"), ("test_set", "everywhere")])]⟩

/-- A settings file whose only invalid option is `training_set`. -/
def bad_training_set_file : SettingsFile :=
  ⟨[("pymor", [("training_set", "latin_hypercube")])]⟩

/-- A settings file whose only invalid option is `test_error_norm`. -/
def bad_test_norm_file : SettingsFile :=
  ⟨[("pymor",
     [("num_training_samples", "2"), ("target_error", "1"), ("test_error_norm", "l2")])]⟩

/-- A settings file whose only invalid option is
`extension_algorithm_product`. -/
def bad_ext_product_file : SettingsFile :=
  ⟨[("pymor", [("extension_algorithm_product", "l2")])]⟩

/-- A settings file selecting the affine-linear reductor (whose assembled
value is then not what `greedy` receives). -/
def affine_reductor_file : SettingsFile :=
  ⟨[("pymor",
     [("reductor", "stationary_affine_linear"), ("reductor_error_product", "None"),
      ("target_error", "2")])]⟩

/-- Affine-linear reductor selected, `reductor_error_product` absent. -/
def affine_no_product_file : SettingsFile :=
  ⟨[("pymor", [("reductor", "stationary_affine_linear")])]⟩

/-- Affine-linear reductor selected, `reductor_error_product` not the
literal `'None'`. -/
def affine_bad_product_file : SettingsFile :=
  ⟨[("pymor",
     [("reductor", "stationary_affine_linear"), ("reductor_error_product", "h1")])]⟩

/-- A complete small run with `num_test_samples = 7`. -/
def num_test_int_file : SettingsFile :=
  ⟨[("pymor",
     [("num_training_samples", "2"), ("target_error", "1"), ("num_test_samples", "7")])]⟩

/-- The same settings with `num_test_samples = seven`. -/
def num_test_str_file : SettingsFile :=
  ⟨[("pymor",
     [("num_training_samples", "2"), ("target_error", "1"), ("num_test_samples", "seven")])]⟩

/-- Invariant of the running-max loop: from state `(m, best)` the scan
either never fires its update (all errors at most `m`, state returned
unchanged) or returns the error and sample at an index `i` whose error
exceeds `m`, is maximal over the list, and strictly exceeds every earlier
error — the first occurrence of the maximum. -/
theorem quality_scan_cases {μ : Type} (errOf : μ → ℚ) (l : List μ) :
    ∀ (m : ℚ) (best : Option μ),
      (quality_scan errOf l m best = (m, best) ∧ ∀ mu ∈ l, errOf mu ≤ m) ∨
      (∃ (i : Nat) (hi : i < l.length),
        quality_scan errOf l m best = (errOf (l.get ⟨i, hi⟩), some (l.get ⟨i, hi⟩)) ∧
        m < errOf (l.get ⟨i, hi⟩) ∧
        (∀ (j : Nat) (hj : j < l.length), errOf (l.get ⟨j, hj⟩) ≤ errOf (l.get ⟨i, hi⟩)) ∧
        (∀ (j : Nat) (hj : j < l.length), j < i → errOf (l.get ⟨j, hj⟩) < errOf (l.get ⟨i, hi⟩))) := by
  induction l with
  | nil =>
      intro m best
      exact Or.inl ⟨rfl, by simp⟩
  | cons mu rest ih =>
      intro m best
      by_cases h : m < errOf mu
      · rcases ih (errOf mu) (some mu) with ⟨heq, hle⟩ | ⟨i, hi, heq, hlt, hmax, hfirst⟩
        · refine Or.inr ⟨0, Nat.succ_pos _, ?_, h, ?_, ?_⟩
          · simpa [quality_scan, if_pos h] using heq
          · intro j hj
            cases j with
            | zero => simp
            | succ k =>
                simp only [List.length_cons, Nat.succ_lt_succ_iff] at hj
                simpa using hle _ (rest.get_mem k hj)
          · intro j hj hj0
            exact absurd hj0 (Nat.not_lt_zero j)
        · refine Or.inr ⟨i + 1, Nat.succ_lt_succ hi, ?_, ?_, ?_, ?_⟩
          · simpa [quality_scan, if_pos h] using heq
          · exact lt_trans h hlt
          · intro j hj
            cases j with
            | zero => simpa using le_of_lt hlt
            | succ k =>
                simp only [List.length_cons, Nat.succ_lt_succ_iff] at hj
                simpa using hmax k hj
          · intro j hj hji
            cases j with
            | zero => simpa using hlt
            | succ k =>
                simp only [List.length_cons, Nat.succ_lt_succ_iff] at hj
                simpa using hfirst k hj (Nat.lt_of_succ_lt_succ hji)
      · rcases ih m best with ⟨heq, hle⟩ | ⟨i, hi, heq, hlt, hmax, hfirst⟩
        · refine Or.inl ⟨?_, ?_⟩
          · simpa [quality_scan, if_neg h] using heq
          · intro mu2 hmu2
            rcases List.mem_cons.mp hmu2 with hh | hh
            · exact hh ▸ le_of_not_lt h
            · exact hle mu2 hh
        · refine Or.inr ⟨i + 1, Nat.succ_lt_succ hi, ?_, hlt, ?_, ?_⟩
          · simpa [quality_scan, if_neg h] using heq
          · intro j hj
            cases j with
            | zero => simpa using le_trans (le_of_not_lt h) (le_of_lt hlt)
            | succ k =>
                simp only [List.length_cons, Nat.succ_lt_succ_iff] at hj
                simpa using hmax k hj
          · intro j hj hji
            cases j with
            | zero => simpa using lt_of_le_of_lt (le_of_not_lt h) hlt
            | succ k =>
                simp only [List.length_cons, Nat.succ_lt_succ_iff] at hj
                simpa using hfirst k hj (Nat.lt_of_succ_lt_succ hji)

/-- C1 (amended).  For every empty test-sample sequence, the running-max
loop itself completes without error — `err_max` remains the sentinel `-1`
and `mumax` is never assigned — but `test_quality` then raises
`KeyError: 'mumax'` when `.format(**locals())` renders the report, so no
report is returned. -/
theorem empty_test_sequence_keyerror {μ : Type} (f : SettingsFile) (errOf : μ → ℚ)
    (strategy : String) (h : cfg_get f "pymor" "test_error_norm" = Except.ok "h1") :
    quality_scan errOf ([] : List μ) (-1) none = (-1, none) ∧
    test_quality f ([] : List μ) errOf strategy = Except.error (PyError.keyError "mumax") := by
  constructor
  · rfl
  · simp [test_quality, h, quality_scan]

/-- Witness for `empty_test_sequence_keyerror` at the settings file with an
empty `[pymor]` section (where `test_error_norm` resolves to its default
`h1`). -/
theorem empty_test_sequence_keyerror_witness :
    cfg_get pymor_only_file "pymor" "test_error_norm" = Except.ok "h1" ∧
    (quality_scan (fun n : ℕ => (n : ℚ)) [] (-1) none = (-1, none) ∧
     test_quality pymor_only_file ([] : List ℕ) (fun n => (n : ℚ)) "training" =
       Except.error (PyError.keyError "mumax")) :=
  ⟨by decide, @empty_test_sequence_keyerror ℕ pymor_only_file (fun n => (n : ℚ)) "training" (by decide)⟩

/-- Counterexample to C1 as stated: at the empty test sequence,
`test_quality` does raise — the result is the `KeyError` of the report
formatting, not a report. -/
theorem empty_test_sequence_raises_cex :
    test_quality pymor_only_file ([] : List ℕ) (fun n => (n : ℚ)) "training" =
      Except.error (PyError.keyError "mumax") ∧
    ∀ r : TestReport ℕ,
      test_quality pymor_only_file ([] : List ℕ) (fun n => (n : ℚ)) "training" ≠ Except.ok r := by
  refine ⟨by decide, ?_⟩
  intro r hr
  rw [show test_quality pymor_only_file ([] : List ℕ) (fun n => (n : ℚ)) "training" =
        Except.error (PyError.keyError "mumax") from by decide] at hr
  exact Except.noConfusion hr

/-- C2.  For every non-empty test-sample sequence whose errors are genuine
norm values (non-negative, hence above the sentinel `-1`), `test_quality`
returns a report whose maximal error is attained at an index `i` that is
maximal over the whole sequence and strictly exceeds every earlier error:
the retained maximizing parameter is the first occurrence of the eventual
maximum under the strict `>` update. -/
theorem test_quality_first_occurrence_max {μ : Type} (f : SettingsFile) (errOf : μ → ℚ)
    (samples : List μ) (strategy : String)
    (hnorm : cfg_get f "pymor" "test_error_norm" = Except.ok "h1")
    (hne : samples ≠ []) (hpos : ∀ mu ∈ samples, 0 ≤ errOf mu) :
    ∃ (i : Nat) (hi : i < samples.length),
      test_quality f samples errOf strategy =
        Except.ok
          { strategy := strategy, test_size := samples.length,
            err_max := errOf (samples.get ⟨i, hi⟩), mumax := samples.get ⟨i, hi⟩ } ∧
      (∀ (j : Nat) (hj : j < samples.length),
        errOf (samples.get ⟨j, hj⟩) ≤ errOf (samples.get ⟨i, hi⟩)) ∧
      (∀ (j : Nat) (hj : j < samples.length),
        j < i → errOf (samples.get ⟨j, hj⟩) < errOf (samples.get ⟨i, hi⟩)) := by
  rcases quality_scan_cases errOf samples (-1) none with ⟨_, hle⟩ | ⟨i, hi, heq, _, hmax, hfirst⟩
  · rcases List.exists_mem_of_ne_nil samples hne with ⟨mu, hmu⟩
    have h0 := hpos mu hmu
    have h1 := hle mu hmu
    linarith
  · refine ⟨i, hi, ?_, hmax, hfirst⟩
    simp [test_quality, hnorm, heq]

/-- Witness for `test_quality_first_occurrence_max` at the error sequence
`[0.3, 0.9, 0.2, 0.9]` of the spec: the reported maximum is `0.9` and the
retained maximizing point is the one at index `1` (first occurrence), not
index `3`. -/
theorem test_quality_first_occurrence_max_witness :
    cfg_get pymor_only_file "pymor" "test_error_norm" = Except.ok "h1" ∧
    ([0, 1, 2, 3] : List ℕ) ≠ [] ∧
    (∀ mu ∈ ([0, 1, 2, 3] : List ℕ), 0 ≤ c2_errs mu) ∧
    (∃ (i : Nat) (hi : i < ([0, 1, 2, 3] : List ℕ).length),
      test_quality pymor_only_file [0, 1, 2, 3] c2_errs "training" =
        Except.ok
          { strategy := "training", test_size := ([0, 1, 2, 3] : List ℕ).length,
            err_max := c2_errs (([0, 1, 2, 3] : List ℕ).get ⟨i, hi⟩),
            mumax := ([0, 1, 2, 3] : List ℕ).get ⟨i, hi⟩ } ∧
      (∀ (j : Nat) (hj : j < ([0, 1, 2, 3] : List ℕ).length),
        c2_errs (([0, 1, 2, 3] : List ℕ).get ⟨j, hj⟩) ≤
          c2_errs (([0, 1, 2, 3] : List ℕ).get ⟨i, hi⟩)) ∧
      (∀ (j : Nat) (hj : j < ([0, 1, 2, 3] : List ℕ).length),
        j < i → c2_errs (([0, 1, 2, 3] : List ℕ).get ⟨j, hj⟩) <
          c2_errs (([0, 1, 2, 3] : List ℕ).get ⟨i, hi⟩))) ∧
    test_quality pymor_only_file [0, 1, 2, 3] c2_errs "training" =
      Except.ok { strategy := "training", test_size := 4, err_max := 9/10, mumax := 1 } :=
  ⟨by decide, by decide, by decide,
   test_quality_first_occurrence_max pymor_only_file c2_errs [0, 1, 2, 3] "training"
     (by decide) (by decide) (by decide),
   by rw [show (9/10 : ℚ) = mkRat 9 10 from by rw [Rat.mkRat_eq_div]; norm_num]; decide⟩

/-- Entries already in the registry survive the rest of the defaults
loop (each iteration only appends). -/
theorem apply_defaults_items_sub (items : List (String × String)) :
    ∀ (reg result : List (String × DefaultValue)),
      apply_defaults_items items reg = Except.ok result →
      ∀ e, e ∈ reg → e ∈ result := by
  induction items with
  | nil =>
      intro reg result h e he
      simp only [apply_defaults_items] at h
      cases h
      exact he
  | cons kv rest ih =>
      intro reg result h e he
      rcases kv with ⟨key, value⟩
      simp only [apply_defaults_items] at h
      cases hsc : suffix_kind key with
      | none =>
          rw [hsc] at h
          exact ih _ _ h e he
      | some sc =>
          cases sc with
          | floatKind =>
              rw [hsc] at h
              cases hp : parseFloatStr value with
              | none => rw [hp] at h; cases h
              | some q =>
                  rw [hp] at h
                  exact ih _ _ h e (List.mem_append.mpr (Or.inl he))
          | boolKind =>
              rw [hsc] at h
              cases hp : parseBoolStr value with
              | none => rw [hp] at h; cases h
              | some b =>
                  rw [hp] at h
                  exact ih _ _ h e (List.mem_append.mpr (Or.inl he))
          | intKind =>
              rw [hsc] at h
              cases hp : parseIntStr value with
              | none => rw [hp] at h; cases h
              | some z =>
                  rw [hp] at h
                  exact ih _ _ h e (List.mem_append.mpr (Or.inl he))

/-- Every entry of the final registry either was already present or was
written by some item whose key matched the suffix class recorded in the
entry's tag, with the value produced by the matching conversion. -/
theorem apply_defaults_items_domain (items : List (String × String)) :
    ∀ (reg result : List (String × DefaultValue)),
      apply_defaults_items items reg = Except.ok result →
      ∀ key v, (key, v) ∈ result →
        (key, v) ∈ reg ∨
        ∃ value, (key, value) ∈ items ∧
          ((∃ q, v = DefaultValue.floatV q ∧ suffix_kind key = some SuffixKind.floatKind ∧
              parseFloatStr value = some q) ∨
           (∃ b, v = DefaultValue.boolV b ∧ suffix_kind key = some SuffixKind.boolKind ∧
              parseBoolStr value = some b) ∨
           (∃ z, v = DefaultValue.intV z ∧ suffix_kind key = some SuffixKind.intKind ∧
              parseIntStr value = some z)) := by
  induction items with
  | nil =>
      intro reg result h key v hv
      simp only [apply_defaults_items] at h
      cases h
      exact Or.inl hv
  | cons kv rest ih =>
      intro reg result h key v hv
      rcases kv with ⟨key2, value2⟩
      simp only [apply_defaults_items] at h
      cases hsc : suffix_kind key2 with
      | none =>
          rw [hsc] at h
          rcases ih _ _ h key v hv with hin | ⟨value, hmem, hrest⟩
          · exact Or.inl hin
          · exact Or.inr ⟨value, List.mem_cons_of_mem _ hmem, hrest⟩
      | some sc =>
          cases sc with
          | floatKind =>
              rw [hsc] at h
              cases hp : parseFloatStr value2 with
              | none => rw [hp] at h; cases h
              | some q =>
                  rw [hp] at h
                  rcases ih _ _ h key v hv with hin | ⟨value, hmem, hrest⟩
                  · rcases List.mem_append.mp hin with hin2 | hin2
                    · exact Or.inl hin2
                    · have he : (key, v) = (key2, DefaultValue.floatV q) := List.mem_singleton.mp hin2
                      have hk : key = key2 := congrArg Prod.fst he
                      have hvv : v = DefaultValue.floatV q := congrArg Prod.snd he
                      subst hk
                      exact Or.inr ⟨value2, List.mem_cons_self _ _, Or.inl ⟨q, hvv, hsc, hp⟩⟩
                  · exact Or.inr ⟨value, List.mem_cons_of_mem _ hmem, hrest⟩
          | boolKind =>
              rw [hsc] at h
              cases hp : parseBoolStr value2 with
              | none => rw [hp] at h; cases h
              | some b =>
                  rw [hp] at h
                  rcases ih _ _ h key v hv with hin | ⟨value, hmem, hrest⟩
                  · rcases List.mem_append.mp hin with hin2 | hin2
                    · exact Or.inl hin2
                    · have he : (key, v) = (key2, DefaultValue.boolV b) := List.mem_singleton.mp hin2
                      have hk : key = key2 := congrArg Prod.fst he
                      have hvv : v = DefaultValue.boolV b := congrArg Prod.snd he
                      subst hk
                      exact Or.inr ⟨value2, List.mem_cons_self _ _,
                        Or.inr (Or.inl ⟨b, hvv, hsc, hp⟩)⟩
                  · exact Or.inr ⟨value, List.mem_cons_of_mem _ hmem, hrest⟩
          | intKind =>
              rw [hsc] at h
              cases hp : parseIntStr value2 with
              | none => rw [hp] at h; cases h
              | some z =>
                  rw [hp] at h
                  rcases ih _ _ h key v hv with hin | ⟨value, hmem, hrest⟩
                  · rcases List.mem_append.mp hin with hin2 | hin2
                    · exact Or.inl hin2
                    · have he : (key, v) = (key2, DefaultValue.intV z) := List.mem_singleton.mp hin2
                      have hk : key = key2 := congrArg Prod.fst he
                      have hvv : v = DefaultValue.intV z := congrArg Prod.snd he
                      subst hk
                      exact Or.inr ⟨value2, List.mem_cons_self _ _,
                        Or.inr (Or.inr ⟨z, hvv, hsc, hp⟩)⟩
                  · exact Or.inr ⟨value, List.mem_cons_of_mem _ hmem, hrest⟩

/-- Every item whose key matches a suffix class is written to the registry
with the value converted by the matching conversion. -/
theorem apply_defaults_items_mem (items : List (String × String)) :
    ∀ (reg result : List (String × DefaultValue)),
      apply_defaults_items items reg = Except.ok result →
      ∀ key value, (key, value) ∈ items →
        (suffix_kind key = some SuffixKind.floatKind →
          ∃ q, parseFloatStr value = some q ∧ (key, DefaultValue.floatV q) ∈ result) ∧
        (suffix_kind key = some SuffixKind.boolKind →
          ∃ b, parseBoolStr value = some b ∧ (key, DefaultValue.boolV b) ∈ result) ∧
        (suffix_kind key = some SuffixKind.intKind →
          ∃ z, parseIntStr value = some z ∧ (key, DefaultValue.intV z) ∈ result) := by
  induction items with
  | nil =>
      intro reg result h key value hmem
      exact absurd hmem (List.not_mem_nil _)
  | cons kv rest ih =>
      intro reg result h key value hmem
      rcases kv with ⟨key2, value2⟩
      simp only [apply_defaults_items] at h
      rcases List.mem_cons.mp hmem with hhead | htail
      · have hk : key = key2 := congrArg Prod.fst hhead
        have hv : value = value2 := congrArg Prod.snd hhead
        subst hk; subst hv
        refine ⟨?_, ?_, ?_⟩
        · intro hsc
          rw [hsc] at h
          cases hp : parseFloatStr value with
          | none => rw [hp] at h; cases h
          | some q =>
              rw [hp] at h
              exact ⟨q, rfl,
                apply_defaults_items_sub rest _ _ h _ (List.mem_append.mpr (Or.inr (List.mem_singleton.mpr rfl)))⟩
        · intro hsc
          rw [hsc] at h
          cases hp : parseBoolStr value with
          | none => rw [hp] at h; cases h
          | some b =>
              rw [hp] at h
              exact ⟨b, rfl,
                apply_defaults_items_sub rest _ _ h _ (List.mem_append.mpr (Or.inr (List.mem_singleton.mpr rfl)))⟩
        · intro hsc
          rw [hsc] at h
          cases hp : parseIntStr value with
          | none => rw [hp] at h; cases h
          | some z =>
              rw [hp] at h
              exact ⟨z, rfl,
                apply_defaults_items_sub rest _ _ h _ (List.mem_append.mpr (Or.inr (List.mem_singleton.mpr rfl)))⟩
      · cases hsc2 : suffix_kind key2 with
        | none =>
            rw [hsc2] at h
            exact ih _ _ h key value htail
        | some sc =>
            cases sc with
            | floatKind =>
                rw [hsc2] at h
                cases hp : parseFloatStr value2 with
                | none => rw [hp] at h; cases h
                | some q => rw [hp] at h; exact ih _ _ h key value htail
            | boolKind =>
                rw [hsc2] at h
                cases hp : parseBoolStr value2 with
                | none => rw [hp] at h; cases h
                | some b => rw [hp] at h; exact ih _ _ h key value htail
            | intKind =>
                rw [hsc2] at h
                cases hp : parseIntStr value2 with
                | none => rw [hp] at h; cases h
                | some z => rw [hp] at h; exact ih _ _ h key value htail

/-- The defaults loop raises no error when every suffix-matched value
converts (keys matching no suffix impose no condition at all: they are
skipped). -/
theorem apply_defaults_items_progress (items : List (String × String))
    (hfl : ∀ kv ∈ items, suffix_kind kv.1 = some SuffixKind.floatKind →
      (parseFloatStr kv.2).isSome)
    (hbo : ∀ kv ∈ items, suffix_kind kv.1 = some SuffixKind.boolKind →
      (parseBoolStr kv.2).isSome)
    (hin : ∀ kv ∈ items, suffix_kind kv.1 = some SuffixKind.intKind →
      (parseIntStr kv.2).isSome) :
    ∀ reg, ∃ result, apply_defaults_items items reg = Except.ok result := by
  induction items with
  | nil =>
      intro reg
      exact ⟨reg, rfl⟩
  | cons kv rest ih =>
      intro reg
      rcases kv with ⟨key, value⟩
      have ih2 := ih (fun p hp => hfl p (List.mem_cons_of_mem _ hp))
        (fun p hp => hbo p (List.mem_cons_of_mem _ hp))
        (fun p hp => hin p (List.mem_cons_of_mem _ hp))
      simp only [apply_defaults_items]
      cases hsc : suffix_kind key with
      | none => exact ih2 reg
      | some sc =>
          cases sc with
          | floatKind =>
              have := hfl (key, value) (List.mem_cons_self _ _) hsc
              cases hp : parseFloatStr value with
              | none => rw [hp] at this; cases this
              | some q => exact ih2 _
          | boolKind =>
              have := hbo (key, value) (List.mem_cons_self _ _) hsc
              cases hp : parseBoolStr value with
              | none => rw [hp] at this; cases this
              | some b => exact ih2 _
          | intKind =>
              have := hin (key, value) (List.mem_cons_self _ _) hsc
              cases hp : parseIntStr value with
              | none => rw [hp] at this; cases this
              | some z => exact ih2 _

/-- None of the thirteen constructor-default keys (merged into the
section's items by `ConfigParser.items`) matches any suffix: they are all
skipped by the loop. -/
theorem config_defaults_no_suffix :
    ∀ kv ∈ config_defaults, suffix_kind kv.1 = none := by decide

/-- A settings file missing a section has no items for it. -/
theorem section_items_of_not_has_section (f : SettingsFile) (name : String)
    (h : has_section f name = false) : section_items f name = [] := by
  rcases f with ⟨secs⟩
  simp only [has_section, List.any_eq_false] at h
  simp only [section_items]
  induction secs with
  | nil => rfl
  | cons s rest ih =>
      have hs : (s.1 == name) = false := by
        have := h s (List.mem_cons_self _ _)
        simpa using this
      simp only [sections_find, hs, Bool.false_eq_true, if_false]
      exact ih (fun x hx => h x (List.mem_cons_of_mem _ hx))

/-- C3.  Provided every suffix-matched value in the optional
`[pymor.defaults]` section converts (a failed conversion is a `ValueError`
of `getfloat`/`getboolean`/`getint`, not part of the claim), the section is
processed without error: every key ending in a float suffix is applied to
the registry as a float, every key ending in a boolean suffix as a boolean,
every key ending in an integer suffix as an integer, every key matching no
suffix is silently ignored (never applied), and nothing but suffix-matched
keys ever reaches the registry. -/
theorem pymor_defaults_suffix_dispatch (f : SettingsFile)
    (hfl : ∀ kv ∈ section_items f "pymor.defaults",
      suffix_kind kv.1 = some SuffixKind.floatKind → (parseFloatStr kv.2).isSome)
    (hbo : ∀ kv ∈ section_items f "pymor.defaults",
      suffix_kind kv.1 = some SuffixKind.boolKind → (parseBoolStr kv.2).isSome)
    (hin : ∀ kv ∈ section_items f "pymor.defaults",
      suffix_kind kv.1 = some SuffixKind.intKind → (parseIntStr kv.2).isSome) :
    ∃ registry, process_pymor_defaults f = Except.ok registry ∧
      (∀ key value, (key, value) ∈ section_items f "pymor.defaults" →
        (suffix_kind key = some SuffixKind.floatKind →
          ∃ q, parseFloatStr value = some q ∧ (key, DefaultValue.floatV q) ∈ registry) ∧
        (suffix_kind key = some SuffixKind.boolKind →
          ∃ b, parseBoolStr value = some b ∧ (key, DefaultValue.boolV b) ∈ registry) ∧
        (suffix_kind key = some SuffixKind.intKind →
          ∃ z, parseIntStr value = some z ∧ (key, DefaultValue.intV z) ∈ registry)) ∧
      (∀ key, suffix_kind key = none → ∀ v, (key, v) ∉ registry) ∧
      (∀ key v, (key, v) ∈ registry →
        (∃ q, v = DefaultValue.floatV q ∧ suffix_kind key = some SuffixKind.floatKind) ∨
        (∃ b, v = DefaultValue.boolV b ∧ suffix_kind key = some SuffixKind.boolKind) ∨
        (∃ z, v = DefaultValue.intV z ∧ suffix_kind key = some SuffixKind.intKind)) := by
  cases hsec : has_section f "pymor.defaults" with
  | false =>
      refine ⟨[], ?_, ?_, ?_, ?_⟩
      · simp [process_pymor_defaults, hsec]
      · intro key value hmem
        rw [section_items_of_not_has_section f _ hsec] at hmem
        exact absurd hmem (List.not_mem_nil _)
      · intro key _ v hv
        exact absurd hv (List.not_mem_nil _)
      · intro key v hv
        exact absurd hv (List.not_mem_nil _)
  | true =>
      have hfl2 : ∀ kv ∈ config_defaults ++ section_items f "pymor.defaults",
          suffix_kind kv.1 = some SuffixKind.floatKind → (parseFloatStr kv.2).isSome := by
        intro kv hkv hsc
        rcases List.mem_append.mp hkv with hd | ho
        · rw [config_defaults_no_suffix kv hd] at hsc; cases hsc
        · exact hfl kv ho hsc
      have hbo2 : ∀ kv ∈ config_defaults ++ section_items f "pymor.defaults",
          suffix_kind kv.1 = some SuffixKind.boolKind → (parseBoolStr kv.2).isSome := by
        intro kv hkv hsc
        rcases List.mem_append.mp hkv with hd | ho
        · rw [config_defaults_no_suffix kv hd] at hsc; cases hsc
        · exact hbo kv ho hsc
      have hin2 : ∀ kv ∈ config_defaults ++ section_items f "pymor.defaults",
          suffix_kind kv.1 = some SuffixKind.intKind → (parseIntStr kv.2).isSome := by
        intro kv hkv hsc
        rcases List.mem_append.mp hkv with hd | ho
        · rw [config_defaults_no_suffix kv hd] at hsc; cases hsc
        · exact hin kv ho hsc
      rcases apply_defaults_items_progress _ hfl2 hbo2 hin2 [] with ⟨registry, hreg⟩
      refine ⟨registry, ?_, ?_, ?_, ?_⟩
      · simp [process_pymor_defaults, hsec, hreg]
      · intro key value hmem
        exact apply_defaults_items_mem _ _ _ hreg key value (List.mem_append.mpr (Or.inr hmem))
      · intro key hnone v hv
        rcases apply_defaults_items_domain _ _ _ hreg key v hv with hin3 | ⟨value, _, hcase⟩
        · exact absurd hin3 (List.not_mem_nil _)
        · rcases hcase with ⟨q, _, hsc, _⟩ | ⟨b, _, hsc, _⟩ | ⟨z, _, hsc, _⟩ <;>
            rw [hnone] at hsc <;> cases hsc
      · intro key v hv
        rcases apply_defaults_items_domain _ _ _ hreg key v hv with hin3 | ⟨value, _, hcase⟩
        · exact absurd hin3 (List.not_mem_nil _)
        · rcases hcase with ⟨q, hq, hsc, _⟩ | ⟨b, hb, hsc, _⟩ | ⟨z, hz, hsc, _⟩
          · exact Or.inl ⟨q, hq, hsc⟩
          · exact Or.inr (Or.inl ⟨b, hb, hsc⟩)
          · exact Or.inr (Or.inr ⟨z, hz, hsc⟩)

/-- Witness for `pymor_defaults_suffix_dispatch` at `defaults_demo_file`:
the three suffix-matched keys land in the registry with their converted
typed values, the unmatched key is dropped, and no error is raised. -/
theorem pymor_defaults_suffix_dispatch_witness :
    (∃ registry, process_pymor_defaults defaults_demo_file = Except.ok registry ∧
      (∀ key value, (key, value) ∈ section_items defaults_demo_file "pymor.defaults" →
        (suffix_kind key = some SuffixKind.floatKind →
          ∃ q, parseFloatStr value = some q ∧ (key, DefaultValue.floatV q) ∈ registry) ∧
        (suffix_kind key = some SuffixKind.boolKind →
          ∃ b, parseBoolStr value = some b ∧ (key, DefaultValue.boolV b) ∈ registry) ∧
        (suffix_kind key = some SuffixKind.intKind →
          ∃ z, parseIntStr value = some z ∧ (key, DefaultValue.intV z) ∈ registry)) ∧
      (∀ key, suffix_kind key = none → ∀ v, (key, v) ∉ registry) ∧
      (∀ key v, (key, v) ∈ registry →
        (∃ q, v = DefaultValue.floatV q ∧ suffix_kind key = some SuffixKind.floatKind) ∨
        (∃ b, v = DefaultValue.boolV b ∧ suffix_kind key = some SuffixKind.boolKind) ∨
        (∃ z, v = DefaultValue.intV z ∧ suffix_kind key = some SuffixKind.intKind))) ∧
    process_pymor_defaults defaults_demo_file =
      Except.ok
        [("gram_schmidt_tol", DefaultValue.floatV (mkRat 5 10)),
         ("compact_print", DefaultValue.boolV true),
         ("bicgstab_maxiter", DefaultValue.intV 42)] :=
  ⟨pymor_defaults_suffix_dispatch defaults_demo_file (by decide) (by decide) (by decide),
   by decide⟩

/-- Rewriting one key's value leaves every other key's lookup unchanged
(map branch of `setKey`). -/
theorem lookupOpt_map_setval (l : List (String × String)) (k v key : String) (h : key ≠ k) :
    lookupOpt (l.map (fun p => if p.1 == k then (p.1, v) else p)) key = lookupOpt l key := by
  induction l with
  | nil => rfl
  | cons p rest ih =>
      simp only [List.map_cons, lookupOpt]
      by_cases hpk : p.1 = k
      · have h1 : (p.1 == k) = true := by simp [hpk]
        have h2 : (p.1 == key) = false := by
          simp only [beq_eq_false_iff_ne, ne_eq, hpk]
          exact fun he => h he.symm
        simp only [h1, if_true, h2, Bool.false_eq_true, if_false]
        exact ih
      · have h1 : (p.1 == k) = false := by simp [hpk]
        simp only [h1, Bool.false_eq_true, if_false]
        cases hb : (p.1 == key) with
        | true => simp [hb]
        | false => simp only [hb, Bool.false_eq_true, if_false]; exact ih

/-- Appending a fresh key does not affect other keys' lookups. -/
theorem lookupOpt_append_single_ne (l : List (String × String)) (k v key : String)
    (h : key ≠ k) : lookupOpt (l ++ [(k, v)]) key = lookupOpt l key := by
  induction l with
  | nil =>
      have h1 : (k == key) = false := by
        simp only [beq_eq_false_iff_ne, ne_eq]
        exact fun he => h he.symm
      simp [lookupOpt, h1]
  | cons p rest ih =>
      simp only [List.cons_append, lookupOpt]
      cases hb : (p.1 == key) with
      | true => simp [hb]
      | false => simp [hb, ih]

/-- A key absent from the list is found after appending it. -/
theorem lookupOpt_append_single_self (l : List (String × String)) (k v : String)
    (h : lookupOpt l k = none) : lookupOpt (l ++ [(k, v)]) k = some v := by
  induction l with
  | nil => simp [lookupOpt]
  | cons p rest ih =>
      simp only [lookupOpt] at h
      cases hb : (p.1 == k) with
      | true => rw [hb] at h; simp at h
      | false =>
          rw [hb] at h
          simp only [Bool.false_eq_true, if_false] at h
          simp only [List.cons_append, lookupOpt, hb, Bool.false_eq_true, if_false]
          exact ih h

/-- A key that occurs in the list is found with the new value after the
map branch of `setKey`. -/
theorem lookupOpt_map_setval_self (l : List (String × String)) (k v : String)
    (ha : l.any (fun p => p.1 == k) = true) :
    lookupOpt (l.map (fun p => if p.1 == k then (p.1, v) else p)) k = some v := by
  induction l with
  | nil => cases ha
  | cons p rest ih =>
      simp only [List.map_cons, lookupOpt]
      by_cases hpk : p.1 = k
      · have h1 : (p.1 == k) = true := by simp [hpk]
        simp [h1]
      · have h1 : (p.1 == k) = false := by simp [hpk]
        simp only [List.any_cons, h1, Bool.false_or] at ha
        simp only [h1, Bool.false_eq_true, if_false]
        exact ih ha

/-- A key no entry carries is never found. -/
theorem lookupOpt_eq_none_of_any_false (l : List (String × String)) (k : String)
    (ha : l.any (fun p => p.1 == k) = false) : lookupOpt l k = none := by
  induction l with
  | nil => rfl
  | cons p rest ih =>
      simp only [List.any_cons, Bool.or_eq_false_iff] at ha
      simp only [lookupOpt, ha.1, Bool.false_eq_true, if_false]
      exact ih ha.2

/-- The update `setKey` leaves every other key's lookup unchanged. -/
theorem lookupOpt_setKey_ne (l : List (String × String)) (k v key : String) (h : key ≠ k) :
    lookupOpt (setKey l k v) key = lookupOpt l key := by
  simp only [setKey]
  cases ha : l.any (fun p => p.1 == k) with
  | true => simp only [if_true]; exact lookupOpt_map_setval l k v key h
  | false => simp only [Bool.false_eq_true, if_false]; exact lookupOpt_append_single_ne l k v key h

/-- The update `setKey` makes the key resolve to the new value. -/
theorem lookupOpt_setKey_self (l : List (String × String)) (k v : String) :
    lookupOpt (setKey l k v) k = some v := by
  simp only [setKey]
  cases ha : l.any (fun p => p.1 == k) with
  | true => simp only [if_true]; exact lookupOpt_map_setval_self l k v ha
  | false =>
      simp only [Bool.false_eq_true, if_false]
      exact lookupOpt_append_single_self l k v (lookupOpt_eq_none_of_any_false l k ha)

/-- Setting a `[pymor]` option in a file without a `[pymor]` section is the
identity. -/
theorem set_pymor_option_of_no_section (f : SettingsFile) (k v : String)
    (h : has_section f "pymor" = false) : set_pymor_option f k v = f := by
  rcases f with ⟨secs⟩
  simp only [has_section, List.any_eq_false] at h
  simp only [set_pymor_option, SettingsFile.mk.injEq]
  induction secs with
  | nil => rfl
  | cons s rest ih =>
      have hs : (s.1 == "pymor") = false := by
        have := h s (List.mem_cons_self _ _)
        simpa using this
      simp only [List.map_cons, hs, Bool.false_eq_true, if_false, List.cons.injEq, true_and]
      exact ih (fun x hx => h x (List.mem_cons_of_mem _ hx))

/-- Setting a `[pymor]` option changes no section's presence. -/
theorem has_section_set_pymor (f : SettingsFile) (k v name : String) :
    has_section (set_pymor_option f k v) name = has_section f name := by
  rcases f with ⟨secs⟩
  simp only [has_section, set_pymor_option]
  induction secs with
  | nil => rfl
  | cons s rest ih =>
      simp only [List.map_cons, List.any_cons]
      by_cases hs : s.1 = "pymor"
      · have h1 : (s.1 == "pymor") = true := by simp [hs]
        simp only [h1, if_true]
        rw [ih]
      · have h1 : (s.1 == "pymor") = false := by simp [hs]
        simp only [h1, Bool.false_eq_true, if_false]
        rw [ih]

/-- Setting a `[pymor]` option leaves every other section's items
unchanged. -/
theorem section_items_set_pymor_ne (f : SettingsFile) (k v name : String)
    (h : name ≠ "pymor") :
    section_items (set_pymor_option f k v) name = section_items f name := by
  rcases f with ⟨secs⟩
  simp only [section_items, set_pymor_option]
  induction secs with
  | nil => rfl
  | cons s rest ih =>
      simp only [List.map_cons, sections_find]
      by_cases hs : s.1 = "pymor"
      · have h1 : (s.1 == "pymor") = true := by simp [hs]
        have h2 : (s.1 == name) = false := by
          simp only [beq_eq_false_iff_ne, ne_eq, hs]
          exact fun he => h he.symm
        simp only [h1, if_true, h2, Bool.false_eq_true, if_false]
        exact ih
      · have h1 : (s.1 == "pymor") = false := by simp [hs]
        simp only [h1, Bool.false_eq_true, if_false]
        cases hb : (s.1 == name) with
        | true => simp [hb]
        | false => simp only [sections_find, hb, Bool.false_eq_true, if_false]; exact ih

/-- Setting a `[pymor]` option rewrites exactly the `[pymor]` items (when
the section exists). -/
theorem section_items_set_pymor (f : SettingsFile) (k v : String)
    (h : has_section f "pymor" = true) :
    section_items (set_pymor_option f k v) "pymor" = setKey (section_items f "pymor") k v := by
  rcases f with ⟨secs⟩
  simp only [section_items, set_pymor_option]
  induction secs with
  | nil => cases h
  | cons s rest ih =>
      by_cases hs : s.1 = "pymor"
      · have h1 : (s.1 == "pymor") = true := by simp [hs]
        simp [sections_find, h1]
      · have h1 : (s.1 == "pymor") = false := by simp [hs]
        have h2 : has_section ⟨rest⟩ "pymor" = true := by
          simp only [has_section, List.any_cons, h1, Bool.false_or] at h
          simpa [has_section] using h
        simp only [List.map_cons, sections_find, h1, Bool.false_eq_true, if_false]
        exact ih h2

/-- Setting one `[pymor]` option leaves every other option's resolution
unchanged. -/
theorem cfg_get_set_pymor_ne (f : SettingsFile) (k v key : String) (h : key ≠ k) :
    cfg_get (set_pymor_option f k v) "pymor" key = cfg_get f "pymor" key := by
  cases hs : has_section f "pymor" with
  | false => rw [set_pymor_option_of_no_section f k v hs]
  | true =>
      simp only [cfg_get]
      rw [section_items_set_pymor f k v hs, lookupOpt_setKey_ne _ _ _ _ h]

/-- After setting a `[pymor]` option its resolution is the new value. -/
theorem cfg_get_set_pymor_self (f : SettingsFile) (k v : String)
    (hs : has_section f "pymor" = true) :
    cfg_get (set_pymor_option f k v) "pymor" k = Except.ok v := by
  simp only [cfg_get]
  rw [section_items_set_pymor f k v hs, lookupOpt_setKey_self]

theorem cfg_getint_set_pymor_ne (f : SettingsFile) (k v key : String) (h : key ≠ k) :
    cfg_getint (set_pymor_option f k v) "pymor" key = cfg_getint f "pymor" key := by
  simp only [cfg_getint]
  rw [cfg_get_set_pymor_ne f k v key h]

theorem cfg_getfloat_set_pymor_ne (f : SettingsFile) (k v key : String) (h : key ≠ k) :
    cfg_getfloat (set_pymor_option f k v) "pymor" key = cfg_getfloat f "pymor" key := by
  simp only [cfg_getfloat]
  rw [cfg_get_set_pymor_ne f k v key h]

theorem cfg_getboolean_set_pymor_ne (f : SettingsFile) (k v key : String) (h : key ≠ k) :
    cfg_getboolean (set_pymor_option f k v) "pymor" key = cfg_getboolean f "pymor" key := by
  simp only [cfg_getboolean]
  rw [cfg_get_set_pymor_ne f k v key h]

/-- The `[pymor.defaults]` processing never reads the `[pymor]` section. -/
theorem process_pymor_defaults_set_pymor (f : SettingsFile) (k v : String) :
    process_pymor_defaults (set_pymor_option f k v) = process_pymor_defaults f := by
  simp only [process_pymor_defaults]
  rw [has_section_set_pymor, section_items_set_pymor_ne f k v _ (by decide)]

/-- The quality test depends on the settings only through
`test_error_norm`. -/
theorem test_quality_congr {μ : Type} (f1 f2 : SettingsFile) (samples : List μ)
    (errOf : μ → ℚ) (strategy : String)
    (h : cfg_get f1 "pymor" "test_error_norm" = cfg_get f2 "pymor" "test_error_norm") :
    test_quality f1 samples errOf strategy = test_quality f2 samples errOf strategy := by
  simp only [test_quality]
  rw [h]

/-- The reductor branch depends on the settings only through `reductor` and
`reductor_error_product`. -/
theorem parse_reductor_congr (f1 f2 : SettingsFile)
    (h1 : cfg_get f1 "pymor" "reductor" = cfg_get f2 "pymor" "reductor")
    (h2 : cfg_get f1 "pymor" "reductor_error_product" =
      cfg_get f2 "pymor" "reductor_error_product") :
    parse_reductor f1 = parse_reductor f2 := by
  simp only [parse_reductor]
  rw [h1, h2]

theorem parse_ext_product_congr (f1 f2 : SettingsFile)
    (h : cfg_get f1 "pymor" "extension_algorithm_product" =
      cfg_get f2 "pymor" "extension_algorithm_product") :
    parse_ext_product f1 = parse_ext_product f2 := by
  simp only [parse_ext_product]
  rw [h]

theorem parse_ext_alg_congr (f1 f2 : SettingsFile)
    (h : cfg_get f1 "pymor" "extension_algorithm" = cfg_get f2 "pymor" "extension_algorithm") :
    parse_ext_alg f1 = parse_ext_alg f2 := by
  simp only [parse_ext_alg]
  rw [h]

theorem parse_greedy_norm_congr (f1 f2 : SettingsFile)
    (h : cfg_get f1 "pymor" "greedy_error_norm" = cfg_get f2 "pymor" "greedy_error_norm") :
    parse_greedy_norm f1 = parse_greedy_norm f2 := by
  simp only [parse_greedy_norm]
  rw [h]

/-- The standard-RB parse half depends on the settings only through its
seven option reads. -/
theorem parse_standard_rb_config_congr (f1 f2 : SettingsFile)
    (h1 : parse_reductor f1 = parse_reductor f2)
    (h2 : parse_ext_product f1 = parse_ext_product f2)
    (h3 : parse_ext_alg f1 = parse_ext_alg f2)
    (h4 : parse_greedy_norm f1 = parse_greedy_norm f2)
    (h5 : cfg_getboolean f1 "pymor" "use_estimator" = cfg_getboolean f2 "pymor" "use_estimator")
    (h6 : cfg_getint f1 "pymor" "max_rb_size" = cfg_getint f2 "pymor" "max_rb_size")
    (h7 : cfg_getfloat f1 "pymor" "target_error" = cfg_getfloat f2 "pymor" "target_error") :
    parse_standard_rb_config f1 = parse_standard_rb_config f2 := by
  simp only [parse_standard_rb_config]
  rw [h1, h2, h3, h4, h5, h6, h7]

/-- The LRBMS parse half depends on the settings only through its six option
reads — in particular not on `reductor`. -/
theorem parse_lrbms_config_congr (f1 f2 : SettingsFile)
    (h2 : parse_ext_product f1 = parse_ext_product f2)
    (h3 : parse_ext_alg f1 = parse_ext_alg f2)
    (h4 : parse_greedy_norm f1 = parse_greedy_norm f2)
    (h5 : cfg_getboolean f1 "pymor" "use_estimator" = cfg_getboolean f2 "pymor" "use_estimator")
    (h6 : cfg_getint f1 "pymor" "max_rb_size" = cfg_getint f2 "pymor" "max_rb_size")
    (h7 : cfg_getfloat f1 "pymor" "target_error" = cfg_getfloat f2 "pymor" "target_error") :
    parse_lrbms_config f1 = parse_lrbms_config f2 := by
  simp only [parse_lrbms_config]
  rw [h2, h3, h4, h5, h6, h7]

/-- The post-reduction stage depends on the settings only through
`num_test_samples` (whose converted value is discarded), `test_set`, and
`test_error_norm`. -/
theorem after_reduction_congr {μ : Type} (ext : Externals μ) (f1 f2 : SettingsFile)
    (samples : List μ) (rr : ReductionReport)
    (hnum1 : ∃ m, cfg_getint f1 "pymor" "num_test_samples" = Except.ok m)
    (hnum2 : ∃ m, cfg_getint f2 "pymor" "num_test_samples" = Except.ok m)
    (htse : cfg_get f1 "pymor" "test_set" = cfg_get f2 "pymor" "test_set")
    (htq : cfg_get f1 "pymor" "test_error_norm" = cfg_get f2 "pymor" "test_error_norm") :
    after_reduction ext f1 samples rr = after_reduction ext f2 samples rr := by
  rcases hnum1 with ⟨m1, hm1⟩
  rcases hnum2 with ⟨m2, hm2⟩
  simp only [after_reduction, hm1, hm2]
  rw [htse]
  cases ht : cfg_get f2 "pymor" "test_set" with
  | error e => rfl
  | ok tse =>
      by_cases htr : tse = "training"
      · subst htr
        simp only [if_true]
        rw [test_quality_congr f1 f2 samples ext.errOf "training" htq]
      · simp only [if_neg htr]

/-- The reduction stage depends on the settings only through `framework`,
the two parse halves, and the post-reduction reads. -/
theorem main_reduction_congr {μ : Type} (ext : Externals μ) (f1 f2 : SettingsFile)
    (samples : List μ)
    (hfw : cfg_get f1 "pymor" "framework" = cfg_get f2 "pymor" "framework")
    (hrb : parse_standard_rb_config f1 = parse_standard_rb_config f2)
    (hlr : parse_lrbms_config f1 = parse_lrbms_config f2)
    (hnum1 : ∃ m, cfg_getint f1 "pymor" "num_test_samples" = Except.ok m)
    (hnum2 : ∃ m, cfg_getint f2 "pymor" "num_test_samples" = Except.ok m)
    (htse : cfg_get f1 "pymor" "test_set" = cfg_get f2 "pymor" "test_set")
    (htq : cfg_get f1 "pymor" "test_error_norm" = cfg_get f2 "pymor" "test_error_norm") :
    main_reduction ext f1 samples = main_reduction ext f2 samples := by
  simp only [main_reduction]
  rw [hfw]
  cases hf : cfg_get f2 "pymor" "framework" with
  | error e => rfl
  | ok fw =>
      by_cases h1 : fw = "rb"
      · subst h1
        simp only [if_true]
        rw [hrb]
        cases hp : parse_standard_rb_config f2 with
        | error e => rfl
        | ok p => exact after_reduction_congr ext f1 f2 samples _ hnum1 hnum2 htse htq
      · by_cases h2 : fw = "lrbms"
        · subst h2
          simp only [if_neg h1, if_true]
          rw [hlr]
          cases hp : parse_lrbms_config f2 with
          | error e => rfl
          | ok p => exact after_reduction_congr ext f1 f2 samples _ hnum1 hnum2 htse htq
        · simp only [if_neg h1, if_neg h2]

/-- The training stage depends on the settings only through
`num_training_samples`, `training_set`, and the later stages' reads. -/
theorem main_training_congr {μ : Type} (ext : Externals μ) (f1 f2 : SettingsFile)
    (hn : cfg_getint f1 "pymor" "num_training_samples" =
      cfg_getint f2 "pymor" "num_training_samples")
    (hts : cfg_get f1 "pymor" "training_set" = cfg_get f2 "pymor" "training_set")
    (hfw : cfg_get f1 "pymor" "framework" = cfg_get f2 "pymor" "framework")
    (hrb : parse_standard_rb_config f1 = parse_standard_rb_config f2)
    (hlr : parse_lrbms_config f1 = parse_lrbms_config f2)
    (hnum1 : ∃ m, cfg_getint f1 "pymor" "num_test_samples" = Except.ok m)
    (hnum2 : ∃ m, cfg_getint f2 "pymor" "num_test_samples" = Except.ok m)
    (htse : cfg_get f1 "pymor" "test_set" = cfg_get f2 "pymor" "test_set")
    (htq : cfg_get f1 "pymor" "test_error_norm" = cfg_get f2 "pymor" "test_error_norm") :
    main_training ext f1 = main_training ext f2 := by
  simp only [main_training]
  rw [hn]
  cases hni : cfg_getint f2 "pymor" "num_training_samples" with
  | error e => rfl
  | ok n =>
      rw [hts]
      cases hti : cfg_get f2 "pymor" "training_set" with
      | error e => rfl
      | ok ts =>
          by_cases h1 : ts = "random"
          · subst h1
            simp only [if_true]
            exact main_reduction_congr ext f1 f2 _ hfw hrb hlr hnum1 hnum2 htse htq
          · simp only [if_neg h1]

/-- C4.  For every settings file that cannot be opened (`none`) or that
lacks a `[pymor]` section, the run terminates with the `ConfigError` of the
loading block, and the dune module is never loaded — no discretization is
built (and no greedy run starts). -/
theorem settings_load_failure {μ : Type} (ext : Externals μ) (file : Option SettingsFile)
    (h : file = none ∨ ∃ f, file = some f ∧ has_section f "pymor" = false) :
    main_run ext file =
      ⟨false, false, Except.error (PyError.configError settings_err_msg)⟩ := by
  rcases h with h | ⟨f, hf, hs⟩
  · subst h; rfl
  · subst hf
    simp [main_run, load_config, hs]

/-- Witness for `settings_load_failure`, at the unopenable file and at a
file whose only section is not `[pymor]`. -/
theorem settings_load_failure_witness :
    ((none : Option SettingsFile) = none ∨
      ∃ f, (none : Option SettingsFile) = some f ∧ has_section f "pymor" = false) ∧
    main_run ext0 none =
      ⟨false, false, Except.error (PyError.configError settings_err_msg)⟩ ∧
    (some no_pymor_file = none ∨
      ∃ f, some no_pymor_file = some f ∧ has_section f "pymor" = false) ∧
    main_run ext0 (some no_pymor_file) =
      ⟨false, false, Except.error (PyError.configError settings_err_msg)⟩ :=
  ⟨Or.inl rfl,
   settings_load_failure ext0 none (Or.inl rfl),
   Or.inr ⟨no_pymor_file, rfl, by decide⟩,
   settings_load_failure ext0 (some no_pymor_file) (Or.inr ⟨no_pymor_file, rfl, by decide⟩)⟩

/-- C5 (amended).  Unrecognized values for `training_set`, `framework`,
`reductor` (standard-RB path) and `extension_algorithm` fail with a
`ConfigError` before any greedy run (`greedy_ran = false`); an unrecognized
`test_set` value also fails with a `ConfigError`, but only after the greedy
run has completed (`greedy_ran = true`); and the LRBMS parse half never
reads the `reductor` option at all. -/
theorem unrecognized_option_configerror {μ : Type} (ext : Externals μ)
    (file : Option SettingsFile) (f : SettingsFile) (reg : List (String × DefaultValue))
    (n : Int)
    (hload : load_config file = Except.ok f)
    (hdef : process_pymor_defaults f = Except.ok reg)
    (hn : cfg_getint f "pymor" "num_training_samples" = Except.ok n) :
    (∀ ts, cfg_get f "pymor" "training_set" = Except.ok ts → ts ≠ "random" →
      main_run ext file =
        ⟨true, false, Except.error (PyError.configError
          ("unknown training_set sampling strategy given: " ++ ts))⟩) ∧
    (∀ fw, cfg_get f "pymor" "training_set" = Except.ok "random" →
      cfg_get f "pymor" "framework" = Except.ok fw → fw ≠ "rb" → fw ≠ "lrbms" →
      main_run ext file =
        ⟨true, false, Except.error (PyError.configError ("unknown framework given: " ++ fw))⟩) ∧
    (∀ r, cfg_get f "pymor" "training_set" = Except.ok "random" →
      cfg_get f "pymor" "framework" = Except.ok "rb" →
      cfg_get f "pymor" "reductor" = Except.ok r →
      r ≠ "generic" → r ≠ "stationary_affine_linear" →
      main_run ext file =
        ⟨true, false, Except.error
          (PyError.configError ("unknown pymor.reductor given: " ++ r))⟩) ∧
    (∀ red ea, cfg_get f "pymor" "training_set" = Except.ok "random" →
      cfg_get f "pymor" "framework" = Except.ok "rb" →
      parse_reductor f = Except.ok red →
      parse_ext_product f = Except.ok "h1" →
      cfg_get f "pymor" "extension_algorithm" = Except.ok ea →
      ea ≠ "gram_schmidt" → ea ≠ "pod" →
      main_run ext file =
        ⟨true, false, Except.error
          (PyError.configError ("unknown pymor.extension_algorithm given: " ++ ea))⟩) ∧
    (∀ p m tse, cfg_get f "pymor" "training_set" = Except.ok "random" →
      cfg_get f "pymor" "framework" = Except.ok "rb" →
      parse_standard_rb_config f = Except.ok p →
      cfg_getint f "pymor" "num_test_samples" = Except.ok m →
      cfg_get f "pymor" "test_set" = Except.ok tse → tse ≠ "training" →
      main_run ext file =
        ⟨true, true, Except.error (PyError.configError
          ("unknown test_set sampling strategy given: " ++ tse))⟩) ∧
    (∀ v, parse_lrbms_config (set_pymor_option f "reductor" v) = parse_lrbms_config f) := by
  have hmf : main_run ext file = main_training ext f := by
    simp [main_run, hload, hdef]
  refine ⟨?_, ?_, ?_, ?_, ?_, ?_⟩
  · intro ts hts hne
    rw [hmf]
    simp [main_training, hn, hts, hne]
  · intro fw hts hfw h1 h2
    rw [hmf]
    simp [main_training, hn, hts, main_reduction, hfw, h1, h2]
  · intro r hts hfw hr h1 h2
    have hpr : parse_reductor f =
        Except.error (PyError.configError ("unknown pymor.reductor given: " ++ r)) := by
      simp [parse_reductor, hr, h1, h2]
    rw [hmf]
    simp [main_training, hn, hts, main_reduction, hfw, parse_standard_rb_config, hpr]
  · intro red ea hts hfw hred hep hea h1 h2
    have hpe : parse_ext_alg f =
        Except.error (PyError.configError ("unknown pymor.extension_algorithm given: " ++ ea)) := by
      simp [parse_ext_alg, hea, h1, h2]
    rw [hmf]
    simp [main_training, hn, hts, main_reduction, hfw, parse_standard_rb_config, hred, hep, hpe]
  · intro p m tse hts hfw hp hm htse hne
    rw [hmf]
    simp [main_training, hn, hts, main_reduction, hfw, hp, after_reduction, hm, htse, hne]
  · intro v
    refine parse_lrbms_config_congr _ _ ?_ ?_ ?_ ?_ ?_ ?_
    · exact parse_ext_product_congr _ _ (cfg_get_set_pymor_ne f _ v _ (by decide))
    · exact parse_ext_alg_congr _ _ (cfg_get_set_pymor_ne f _ v _ (by decide))
    · exact parse_greedy_norm_congr _ _ (cfg_get_set_pymor_ne f _ v _ (by decide))
    · exact cfg_getboolean_set_pymor_ne f _ v _ (by decide)
    · exact cfg_getint_set_pymor_ne f _ v _ (by decide)
    · exact cfg_getfloat_set_pymor_ne f _ v _ (by decide)

/-- Counterexample to C5 as stated: with an unrecognized `test_set` value,
the run does fail with a `ConfigError`, but only with `greedy_ran = true` —
the greedy run had already completed, not "before any greedy run
starts". -/
theorem unrecognized_test_set_after_greedy_cex :
    main_run ext0 (some bad_test_set_file) =
      ⟨true, true, Except.error (PyError.configError
        ("unknown test_set sampling strategy given: " ++ "everywhere"))⟩ := by
  decide

/-- Witness for `unrecognized_option_configerror`: the `training_set`
failure happens with `greedy_ran = false`, and the LRBMS parse half is
blind to the `reductor` option. -/
theorem unrecognized_option_configerror_witness :
    load_config (some bad_training_set_file) = Except.ok bad_training_set_file ∧
    process_pymor_defaults bad_training_set_file = Except.ok [] ∧
    cfg_getint bad_training_set_file "pymor" "num_training_samples" = Except.ok 100 ∧
    main_run ext0 (some bad_training_set_file) =
      ⟨true, false, Except.error (PyError.configError
        ("unknown training_set sampling strategy given: " ++ "latin_hypercube"))⟩ ∧
    parse_lrbms_config (set_pymor_option bad_training_set_file "reductor" "bogus") =
      parse_lrbms_config bad_training_set_file :=
  ⟨by decide, by decide, by decide,
   (unrecognized_option_configerror ext0 (some bad_training_set_file) bad_training_set_file
      [] 100 (by decide) (by decide) (by decide)).1 "latin_hypercube" (by decide) (by decide),
   (unrecognized_option_configerror ext0 (some bad_training_set_file) bad_training_set_file
      [] 100 (by decide) (by decide) (by decide)).2.2.2.2.2 "bogus"⟩

/-- C6 (amended).  The pinned-literal options are enforced by assertions:
`extension_algorithm_product` and `greedy_error_norm` must equal `'h1'` and
the LRBMS `use_estimator` must be `False`, all failing before the greedy
loop is invoked (`greedy_ran = false`); but the `test_error_norm = 'h1'`
assertion lives in `test_quality` and fails only after the greedy run has
completed (`greedy_ran = true`). -/
theorem pinned_option_assertions {μ : Type} (ext : Externals μ)
    (file : Option SettingsFile) (f : SettingsFile) (reg : List (String × DefaultValue))
    (n : Int)
    (hload : load_config file = Except.ok f)
    (hdef : process_pymor_defaults f = Except.ok reg)
    (hn : cfg_getint f "pymor" "num_training_samples" = Except.ok n)
    (hts : cfg_get f "pymor" "training_set" = Except.ok "random") :
    (∀ red eap, cfg_get f "pymor" "framework" = Except.ok "rb" →
      parse_reductor f = Except.ok red →
      cfg_get f "pymor" "extension_algorithm_product" = Except.ok eap → eap ≠ "h1" →
      main_run ext file = ⟨true, false, Except.error PyError.assertionError⟩) ∧
    (∀ eap, cfg_get f "pymor" "framework" = Except.ok "lrbms" →
      cfg_get f "pymor" "extension_algorithm_product" = Except.ok eap → eap ≠ "h1" →
      main_run ext file = ⟨true, false, Except.error PyError.assertionError⟩) ∧
    (∀ red ealg gen, cfg_get f "pymor" "framework" = Except.ok "rb" →
      parse_reductor f = Except.ok red →
      parse_ext_product f = Except.ok "h1" →
      parse_ext_alg f = Except.ok ealg →
      cfg_get f "pymor" "greedy_error_norm" = Except.ok gen → gen ≠ "h1" →
      main_run ext file = ⟨true, false, Except.error PyError.assertionError⟩) ∧
    (∀ ealg gen, cfg_get f "pymor" "framework" = Except.ok "lrbms" →
      parse_ext_product f = Except.ok "h1" →
      parse_ext_alg f = Except.ok ealg →
      cfg_get f "pymor" "greedy_error_norm" = Except.ok gen → gen ≠ "h1" →
      main_run ext file = ⟨true, false, Except.error PyError.assertionError⟩) ∧
    (∀ ealg, cfg_get f "pymor" "framework" = Except.ok "lrbms" →
      parse_ext_product f = Except.ok "h1" →
      parse_ext_alg f = Except.ok ealg →
      parse_greedy_norm f = Except.ok "h1" →
      cfg_getboolean f "pymor" "use_estimator" = Except.ok true →
      main_run ext file = ⟨true, false, Except.error PyError.assertionError⟩) ∧
    (∀ p m ten, cfg_get f "pymor" "framework" = Except.ok "rb" →
      parse_standard_rb_config f = Except.ok p →
      cfg_getint f "pymor" "num_test_samples" = Except.ok m →
      cfg_get f "pymor" "test_set" = Except.ok "training" →
      cfg_get f "pymor" "test_error_norm" = Except.ok ten → ten ≠ "h1" →
      main_run ext file = ⟨true, true, Except.error PyError.assertionError⟩) := by
  have hmf : main_run ext file = main_training ext f := by
    simp [main_run, hload, hdef]
  refine ⟨?_, ?_, ?_, ?_, ?_, ?_⟩
  · intro red eap hfw hred hep hne
    have hpp : parse_ext_product f = Except.error PyError.assertionError := by
      simp [parse_ext_product, hep, hne]
    rw [hmf]
    simp [main_training, hn, hts, main_reduction, hfw, parse_standard_rb_config, hred, hpp]
  · intro eap hfw hep hne
    have hpp : parse_ext_product f = Except.error PyError.assertionError := by
      simp [parse_ext_product, hep, hne]
    rw [hmf]
    simp [main_training, hn, hts, main_reduction, hfw, parse_lrbms_config, hpp]
  · intro red ealg gen hfw hred hep healg hgen hne
    have hpn : parse_greedy_norm f = Except.error PyError.assertionError := by
      simp [parse_greedy_norm, hgen, hne]
    rw [hmf]
    simp [main_training, hn, hts, main_reduction, hfw, parse_standard_rb_config,
      hred, hep, healg, hpn]
  · intro ealg gen hfw hep healg hgen hne
    have hpn : parse_greedy_norm f = Except.error PyError.assertionError := by
      simp [parse_greedy_norm, hgen, hne]
    rw [hmf]
    simp [main_training, hn, hts, main_reduction, hfw, parse_lrbms_config, hep, healg, hpn]
  · intro ealg hfw hep healg hpn hue
    rw [hmf]
    simp [main_training, hn, hts, main_reduction, hfw, parse_lrbms_config, hep, healg, hpn, hue]
  · intro p m ten hfw hp hm htse hten hne
    have htq : test_quality f (ext.sample_randomly n) ext.errOf "training" =
        Except.error PyError.assertionError := by
      simp [test_quality, hten, hne]
    rw [hmf]
    simp [main_training, hn, hts, main_reduction, hfw, hp, after_reduction, hm, htse, htq]

/-- Counterexample to C6 as stated: with `test_error_norm = 'l2'` the run
does fail with an assertion, but with `greedy_ran = true` — the assertion
in `test_quality` fires after the greedy loop, not before it. -/
theorem test_error_norm_assert_after_greedy_cex :
    main_run ext0 (some bad_test_norm_file) =
      ⟨true, true, Except.error PyError.assertionError⟩ := by
  decide

/-- Witness for `pinned_option_assertions`: the
`extension_algorithm_product` assertion fires with `greedy_ran = false`. -/
theorem pinned_option_assertions_witness :
    load_config (some bad_ext_product_file) = Except.ok bad_ext_product_file ∧
    cfg_get bad_ext_product_file "pymor" "framework" = Except.ok "rb" ∧
    parse_reductor bad_ext_product_file = Except.ok AssembledReductor.genericTuple ∧
    cfg_get bad_ext_product_file "pymor" "extension_algorithm_product" = Except.ok "l2" ∧
    main_run ext0 (some bad_ext_product_file) =
      ⟨true, false, Except.error PyError.assertionError⟩ :=
  ⟨by decide, by decide, by decide, by decide,
   (pinned_option_assertions ext0 (some bad_ext_product_file) bad_ext_product_file
      [] 100 (by decide) (by decide) (by decide) (by decide)).1
     AssembledReductor.genericTuple "l2" (by decide) (by decide) (by decide) (by decide)⟩

/-- C7.  Whatever reductor the standard-RB path assembled (generic 1-tuple
or product-bound affine-linear partial), the `greedy` invocation receives
the fixed library function `reduce_generic_rb`; the initial basis is one
empty array of the right-hand side's source dimension; and the estimator
flag, the `h1` error norm, the product-bound extension algorithm, the
`max_rb_size` cap and the target error are passed through from the parsed
configuration. -/
theorem standard_rb_greedy_call_args {μ : Type} (f : SettingsFile) (p : RBParsed)
    (rhs_dim : Nat) (samples : List μ) (b : Bool) (mrb : Int) (te : ℚ)
    (hp : parse_standard_rb_config f = Except.ok p)
    (hb : cfg_getboolean f "pymor" "use_estimator" = Except.ok b)
    (hm : cfg_getint f "pymor" "max_rb_size" = Except.ok mrb)
    (ht : cfg_getfloat f "pymor" "target_error" = Except.ok te) :
    standard_rb_greedy_call p rhs_dim samples =
      { discretization := DiscretizationId.global_cg,
        reductor_arg := ReductorArg.reduce_generic_rb,
        training_samples := samples,
        initial_data := InitialData.single rhs_dim,
        use_estimator := b,
        error_norm_id := "h1",
        extension_algorithm := ExtensionAlg.bound p.extension_algorithm_id "h1",
        max_extensions := mrb,
        target_error := te } ∧
    (∀ q : RBParsed, (standard_rb_greedy_call q rhs_dim samples).reductor_arg =
      ReductorArg.reduce_generic_rb) := by
  refine ⟨?_, fun q => rfl⟩
  simp only [parse_standard_rb_config] at hp
  cases h1 : parse_reductor f with
  | error e => rw [h1] at hp; cases hp
  | ok red =>
      rw [h1] at hp
      cases h2 : parse_ext_product f with
      | error e => rw [h2] at hp; cases hp
      | ok eap =>
          rw [h2] at hp
          cases h3 : parse_ext_alg f with
          | error e => rw [h3] at hp; cases hp
          | ok ealg =>
              rw [h3] at hp
              cases h4 : parse_greedy_norm f with
              | error e => rw [h4] at hp; cases hp
              | ok gen =>
                  rw [h4] at hp
                  rw [hb, hm, ht] at hp
                  injection hp with hp2
                  subst hp2
                  rfl

/-- Witness for `standard_rb_greedy_call_args` at `affine_reductor_file`:
the parse assembles the affine-linear reductor, yet the greedy call record
carries `reduce_generic_rb`. -/
theorem standard_rb_greedy_call_args_witness :
    parse_standard_rb_config affine_reductor_file =
      Except.ok
        { reductor := AssembledReductor.stationaryAffineLinear none,
          extension_algorithm_id := ExtAlgId.gram_schmidt_basis_extension,
          use_estimator := false, max_rb_size := 100, target_error := 2 } ∧
    (standard_rb_greedy_call
        { reductor := AssembledReductor.stationaryAffineLinear none,
          extension_algorithm_id := ExtAlgId.gram_schmidt_basis_extension,
          use_estimator := false, max_rb_size := 100, target_error := 2 }
        5 ([0, 1] : List ℕ) =
      { discretization := DiscretizationId.global_cg,
        reductor_arg := ReductorArg.reduce_generic_rb,
        training_samples := [0, 1],
        initial_data := InitialData.single 5,
        use_estimator := false,
        error_norm_id := "h1",
        extension_algorithm := ExtensionAlg.bound ExtAlgId.gram_schmidt_basis_extension "h1",
        max_extensions := 100,
        target_error := 2 } ∧
      ∀ q : RBParsed, (standard_rb_greedy_call q 5 ([0, 1] : List ℕ)).reductor_arg =
        ReductorArg.reduce_generic_rb) :=
  ⟨by decide,
   standard_rb_greedy_call_args affine_reductor_file
     { reductor := AssembledReductor.stationaryAffineLinear none,
       extension_algorithm_id := ExtAlgId.gram_schmidt_basis_extension,
       use_estimator := false, max_rb_size := 100, target_error := 2 }
     5 [0, 1] false 100 2 (by decide) (by decide) (by decide) (by decide)⟩

/-- C8 (amended).  The settings store declares defaults for thirteen named
`[pymor]` options, and each recognized option left unset in the settings
file resolves (through the accessor the script uses for it) to its
documented default. -/
theorem thirteen_defaults_resolved (f : SettingsFile) :
    config_defaults.length = 13 ∧
    (lookupOpt (section_items f "pymor") "framework" = none →
      cfg_get f "pymor" "framework" = Except.ok "rb") ∧
    (lookupOpt (section_items f "pymor") "num_training_samples" = none →
      cfg_getint f "pymor" "num_training_samples" = Except.ok 100) ∧
    (lookupOpt (section_items f "pymor") "training_set" = none →
      cfg_get f "pymor" "training_set" = Except.ok "random") ∧
    (lookupOpt (section_items f "pymor") "reductor" = none →
      cfg_get f "pymor" "reductor" = Except.ok "generic") ∧
    (lookupOpt (section_items f "pymor") "extension_algorithm" = none →
      cfg_get f "pymor" "extension_algorithm" = Except.ok "gram_schmidt") ∧
    (lookupOpt (section_items f "pymor") "extension_algorithm_product" = none →
      cfg_get f "pymor" "extension_algorithm_product" = Except.ok "h1") ∧
    (lookupOpt (section_items f "pymor") "greedy_error_norm" = none →
      cfg_get f "pymor" "greedy_error_norm" = Except.ok "h1") ∧
    (lookupOpt (section_items f "pymor") "use_estimator" = none →
      cfg_getboolean f "pymor" "use_estimator" = Except.ok false) ∧
    (lookupOpt (section_items f "pymor") "max_rb_size" = none →
      cfg_getint f "pymor" "max_rb_size" = Except.ok 100) ∧
    (lookupOpt (section_items f "pymor") "target_error" = none →
      cfg_getfloat f "pymor" "target_error" = Except.ok (1/100)) ∧
    (lookupOpt (section_items f "pymor") "num_test_samples" = none →
      cfg_getint f "pymor" "num_test_samples" = Except.ok 100) ∧
    (lookupOpt (section_items f "pymor") "test_set" = none →
      cfg_get f "pymor" "test_set" = Except.ok "training") ∧
    (lookupOpt (section_items f "pymor") "test_error_norm" = none →
      cfg_get f "pymor" "test_error_norm" = Except.ok "h1") := by
  have hint : parseIntStr "100" = some 100 := by decide
  have hbool : parseBoolStr "False" = some false := by decide
  have hfloat : parseFloatStr "0.01" = some (1/100) := by
    rw [show (1/100 : ℚ) = mkRat 1 100 from by rw [Rat.mkRat_eq_div]; norm_num]
    decide
  refine ⟨by decide, ?_, ?_, ?_, ?_, ?_, ?_, ?_, ?_, ?_, ?_, ?_, ?_, ?_⟩ <;>
    intro h <;>
    simp [cfg_get, cfg_getint, cfg_getboolean, cfg_getfloat, h, hint, hbool, hfloat,
      show lookupOpt config_defaults "framework" = some "rb" from by decide,
      show lookupOpt config_defaults "num_training_samples" = some "100" from by decide,
      show lookupOpt config_defaults "training_set" = some "random" from by decide,
      show lookupOpt config_defaults "reductor" = some "generic" from by decide,
      show lookupOpt config_defaults "extension_algorithm" = some "gram_schmidt" from by decide,
      show lookupOpt config_defaults "extension_algorithm_product" = some "h1" from by decide,
      show lookupOpt config_defaults "greedy_error_norm" = some "h1" from by decide,
      show lookupOpt config_defaults "use_estimator" = some "False" from by decide,
      show lookupOpt config_defaults "max_rb_size" = some "100" from by decide,
      show lookupOpt config_defaults "target_error" = some "0.01" from by decide,
      show lookupOpt config_defaults "num_test_samples" = some "100" from by decide,
      show lookupOpt config_defaults "test_set" = some "training" from by decide,
      show lookupOpt config_defaults "test_error_norm" = some "h1" from by decide]

/-- Counterexample to C8 as stated: the defaults dictionary declares
thirteen options, not fourteen. -/
theorem config_defaults_not_fourteen_cex :
    config_defaults.length = 13 ∧ config_defaults.length ≠ 14 := by decide

/-- Witness for `thirteen_defaults_resolved` at the file with an empty
`[pymor]` section: all thirteen options resolve to their documented
defaults, with the documented types. -/
theorem thirteen_defaults_resolved_witness :
    cfg_get pymor_only_file "pymor" "framework" = Except.ok "rb" ∧
    cfg_getint pymor_only_file "pymor" "num_training_samples" = Except.ok 100 ∧
    cfg_get pymor_only_file "pymor" "training_set" = Except.ok "random" ∧
    cfg_get pymor_only_file "pymor" "reductor" = Except.ok "generic" ∧
    cfg_get pymor_only_file "pymor" "extension_algorithm" = Except.ok "gram_schmidt" ∧
    cfg_get pymor_only_file "pymor" "extension_algorithm_product" = Except.ok "h1" ∧
    cfg_get pymor_only_file "pymor" "greedy_error_norm" = Except.ok "h1" ∧
    cfg_getboolean pymor_only_file "pymor" "use_estimator" = Except.ok false ∧
    cfg_getint pymor_only_file "pymor" "max_rb_size" = Except.ok 100 ∧
    cfg_getfloat pymor_only_file "pymor" "target_error" = Except.ok (1/100) ∧
    cfg_getint pymor_only_file "pymor" "num_test_samples" = Except.ok 100 ∧
    cfg_get pymor_only_file "pymor" "test_set" = Except.ok "training" ∧
    cfg_get pymor_only_file "pymor" "test_error_norm" = Except.ok "h1" := by
  have h := thirteen_defaults_resolved pymor_only_file
  exact ⟨h.2.1 (by decide), h.2.2.1 (by decide), h.2.2.2.1 (by decide),
    h.2.2.2.2.1 (by decide), h.2.2.2.2.2.1 (by decide), h.2.2.2.2.2.2.1 (by decide),
    h.2.2.2.2.2.2.2.1 (by decide), h.2.2.2.2.2.2.2.2.1 (by decide),
    h.2.2.2.2.2.2.2.2.2.1 (by decide), h.2.2.2.2.2.2.2.2.2.2.1 (by decide),
    h.2.2.2.2.2.2.2.2.2.2.2.1 (by decide), h.2.2.2.2.2.2.2.2.2.2.2.2.1 (by decide),
    h.2.2.2.2.2.2.2.2.2.2.2.2.2 (by decide)⟩

/-- C9 (amended).  `num_test_samples` is read (through `getint`) but its
value is never used: two runs over settings files that differ only in the
value of `num_test_samples` behave identically, provided both values parse
as integers (a non-integer value makes its run die with `ValueError` at the
read itself). -/
theorem num_test_samples_noninterference {μ : Type} (ext : Externals μ) (f : SettingsFile)
    (v1 v2 : String) (h1 : (parseIntStr v1).isSome) (h2 : (parseIntStr v2).isSome) :
    main_run ext (some (set_pymor_option f "num_test_samples" v1)) =
    main_run ext (some (set_pymor_option f "num_test_samples" v2)) := by
  cases hs : has_section f "pymor" with
  | false =>
      rw [set_pymor_option_of_no_section f _ _ hs, set_pymor_option_of_no_section f _ _ hs]
  | true =>
      have hs1 : has_section (set_pymor_option f "num_test_samples" v1) "pymor" = true := by
        rw [has_section_set_pymor]; exact hs
      have hs2 : has_section (set_pymor_option f "num_test_samples" v2) "pymor" = true := by
        rw [has_section_set_pymor]; exact hs
      have e1 : ∀ key, key ≠ "num_test_samples" →
          cfg_get (set_pymor_option f "num_test_samples" v1) "pymor" key =
            cfg_get f "pymor" key :=
        fun key hk => cfg_get_set_pymor_ne f _ v1 key hk
      have e2 : ∀ key, key ≠ "num_test_samples" →
          cfg_get (set_pymor_option f "num_test_samples" v2) "pymor" key =
            cfg_get f "pymor" key :=
        fun key hk => cfg_get_set_pymor_ne f _ v2 key hk
      rcases Option.isSome_iff_exists.mp h1 with ⟨m1, hm1⟩
      rcases Option.isSome_iff_exists.mp h2 with ⟨m2, hm2⟩
      simp only [main_run, load_config, hs1, hs2, if_true]
      rw [process_pymor_defaults_set_pymor f _ v1, process_pymor_defaults_set_pymor f _ v2]
      cases hd : process_pymor_defaults f with
      | error e => rfl
      | ok reg =>
          apply main_training_congr
          · rw [cfg_getint_set_pymor_ne f _ v1 _ (by decide),
              cfg_getint_set_pymor_ne f _ v2 _ (by decide)]
          · rw [e1 _ (by decide), e2 _ (by decide)]
          · rw [e1 _ (by decide), e2 _ (by decide)]
          · refine (parse_standard_rb_config_congr _ f
              (parse_reductor_congr _ _ (e1 _ (by decide)) (e1 _ (by decide)))
              (parse_ext_product_congr _ _ (e1 _ (by decide)))
              (parse_ext_alg_congr _ _ (e1 _ (by decide)))
              (parse_greedy_norm_congr _ _ (e1 _ (by decide)))
              (cfg_getboolean_set_pymor_ne f _ v1 _ (by decide))
              (cfg_getint_set_pymor_ne f _ v1 _ (by decide))
              (cfg_getfloat_set_pymor_ne f _ v1 _ (by decide))).trans
              (parse_standard_rb_config_congr _ f
                (parse_reductor_congr _ _ (e2 _ (by decide)) (e2 _ (by decide)))
                (parse_ext_product_congr _ _ (e2 _ (by decide)))
                (parse_ext_alg_congr _ _ (e2 _ (by decide)))
                (parse_greedy_norm_congr _ _ (e2 _ (by decide)))
                (cfg_getboolean_set_pymor_ne f _ v2 _ (by decide))
                (cfg_getint_set_pymor_ne f _ v2 _ (by decide))
                (cfg_getfloat_set_pymor_ne f _ v2 _ (by decide))).symm
          · refine (parse_lrbms_config_congr _ f
              (parse_ext_product_congr _ _ (e1 _ (by decide)))
              (parse_ext_alg_congr _ _ (e1 _ (by decide)))
              (parse_greedy_norm_congr _ _ (e1 _ (by decide)))
              (cfg_getboolean_set_pymor_ne f _ v1 _ (by decide))
              (cfg_getint_set_pymor_ne f _ v1 _ (by decide))
              (cfg_getfloat_set_pymor_ne f _ v1 _ (by decide))).trans
              (parse_lrbms_config_congr _ f
                (parse_ext_product_congr _ _ (e2 _ (by decide)))
                (parse_ext_alg_congr _ _ (e2 _ (by decide)))
                (parse_greedy_norm_congr _ _ (e2 _ (by decide)))
                (cfg_getboolean_set_pymor_ne f _ v2 _ (by decide))
                (cfg_getint_set_pymor_ne f _ v2 _ (by decide))
                (cfg_getfloat_set_pymor_ne f _ v2 _ (by decide))).symm
          · exact ⟨m1, by simp [cfg_getint, cfg_get_set_pymor_self f _ v1 hs, hm1]⟩
          · exact ⟨m2, by simp [cfg_getint, cfg_get_set_pymor_self f _ v2 hs, hm2]⟩
          · rw [e1 _ (by decide), e2 _ (by decide)]
          · rw [e1 _ (by decide), e2 _ (by decide)]

/-- Counterexample to C9 as stated: two runs differing only in
`num_test_samples` do not behave identically under arbitrary variation —
the non-integer value dies with `ValueError` at the `getint` read (after
the greedy run), while the integer value completes. -/
theorem num_test_samples_valueerror_cex :
    num_test_str_file = set_pymor_option num_test_int_file "num_test_samples" "seven" ∧
    (main_run ext0 (some num_test_str_file)).result = Except.error PyError.valueError ∧
    main_run ext0 (some num_test_int_file) ≠ main_run ext0 (some num_test_str_file) := by
  refine ⟨by decide, by decide, by decide⟩

/-- Witness for `num_test_samples_noninterference` at two integer
values. -/
theorem num_test_samples_noninterference_witness :
    (parseIntStr "7").isSome = true ∧ (parseIntStr "8").isSome = true ∧
    main_run ext0 (some (set_pymor_option num_test_int_file "num_test_samples" "7")) =
      main_run ext0 (some (set_pymor_option num_test_int_file "num_test_samples" "8")) :=
  ⟨by decide, by decide,
   num_test_samples_noninterference ext0 num_test_int_file "7" "8" (by decide) (by decide)⟩

/-- C10.  With `reductor = stationary_affine_linear` the parse additionally
reads `reductor_error_product`, which has no declared default: when the
option is absent the read raises the parser's `NoOptionError` (not a
`ConfigError`); when present its value must equal the literal string
`'None'` (a failed `assert` otherwise); and on success the assembled
reductor is bound to `error_product = None`. -/
theorem reductor_error_product_lookup (f : SettingsFile)
    (hred : cfg_get f "pymor" "reductor" = Except.ok "stationary_affine_linear") :
    (lookupOpt (section_items f "pymor") "reductor_error_product" = none →
      parse_reductor f = Except.error (PyError.noOptionError "reductor_error_product") ∧
      ∀ msg, parse_reductor f ≠ Except.error (PyError.configError msg)) ∧
    (∀ w, lookupOpt (section_items f "pymor") "reductor_error_product" = some w →
      w ≠ "None" → parse_reductor f = Except.error PyError.assertionError) ∧
    (lookupOpt (section_items f "pymor") "reductor_error_product" = some "None" →
      parse_reductor f = Except.ok (AssembledReductor.stationaryAffineLinear none)) := by
  refine ⟨?_, ?_, ?_⟩
  · intro hnone
    have hcg : cfg_get f "pymor" "reductor_error_product" =
        Except.error (PyError.noOptionError "reductor_error_product") := by
      simp [cfg_get, hnone,
        show lookupOpt config_defaults "reductor_error_product" = none from by decide]
    have hp : parse_reductor f =
        Except.error (PyError.noOptionError "reductor_error_product") := by
      simp [parse_reductor, hred, hcg]
    refine ⟨hp, ?_⟩
    intro msg heq
    rw [hp] at heq
    injection heq with h
    exact PyError.noConfusion h
  · intro w hsome hne
    have hcg : cfg_get f "pymor" "reductor_error_product" = Except.ok w := by
      simp [cfg_get, hsome]
    simp [parse_reductor, hred, hcg, hne]
  · intro hsome
    have hcg : cfg_get f "pymor" "reductor_error_product" = Except.ok "None" := by
      simp [cfg_get, hsome]
    simp [parse_reductor, hred, hcg]

/-- Witness for `reductor_error_product_lookup` at its three concrete
configurations: absent option (`NoOptionError`), non-`'None'` value
(failed assert), and `'None'` (reductor bound to `error_product = None`). -/
theorem reductor_error_product_lookup_witness :
    (parse_reductor affine_no_product_file =
        Except.error (PyError.noOptionError "reductor_error_product") ∧
      ∀ msg, parse_reductor affine_no_product_file ≠
        Except.error (PyError.configError msg)) ∧
    parse_reductor affine_bad_product_file = Except.error PyError.assertionError ∧
    parse_reductor affine_reductor_file =
      Except.ok (AssembledReductor.stationaryAffineLinear none) :=
  ⟨(reductor_error_product_lookup affine_no_product_file (by decide)).1 (by decide),
   (reductor_error_product_lookup affine_bad_product_file (by decide)).2.1
     "h1" (by decide) (by decide),
   (reductor_error_product_lookup affine_reductor_file (by decide)).2.2 (by decide)⟩
